import Mathlib

/-!
# Lagrange-multiplier latency optimizer (`src/lagrange_opt/optimizer.c`)

A shallow embedding of the solver `solve_lagrange`, its helpers `objective`,
`g1`, `g2`, `g3`, `gradient`, and the input gate `validate_inputs`.

Number model.  A C `double` that holds a finite value is read as an exact
element of a linearly ordered field `K` (take `K = ℝ` for the exact-real
reading, `K = ℚ` to evaluate).  The special values NaN, +infinity and
-infinity are kept apart in the type `Dbl K`; they are needed in two places:
`validate_inputs` receives whatever `atof` produced, and the solver seeds
`prev_latency` with `INFINITY`.  Inside the solver all other arithmetic is
on finite values, with `x / 0 = 0` as in Mathlib; that convention is only
trustworthy where the denominators are non-zero, which is shown below for
every accepted input.

Double precision.  The exact reading drops the rounding that every `double`
operation performs.  Where a property depends on it, the same code is
embedded a second time over `Dbl ℚ` with a rounding after each operation
(`round_double`: IEEE-754 binary64, round to nearest, ties to even, with
subnormals and overflow): `validate_inputs_fp`, `init_vars_fp`, `gradient_fp`,
`loop_body_fp`, `solve_loop_fp`, `solve_lagrange_fp`.  That embedding assumes
that each operation is rounded to binary64 on its own (no fused multiply-add,
no extended precision) and does not record the sign of a zero.
-/

namespace LagrangeOpt

/-- A C double: NaN, the two infinities, or a finite value read exactly. -/
inductive Dbl (K : Type) where
  | nan : Dbl K
  | pinf : Dbl K
  | ninf : Dbl K
  | fin (v : K) : Dbl K
  deriving DecidableEq, Repr

section Defs

variable {K : Type} [LinearOrderedField K]

/-- C `x <= y` on doubles: false as soon as one side is NaN. -/
def Dbl.le : Dbl K → Dbl K → Bool
  | .nan, _ => false
  | _, .nan => false
  | .ninf, _ => true
  | _, .pinf => true
  | .pinf, _ => false
  | _, .ninf => false
  | .fin x, .fin y => decide (x ≤ y)

/-- C `x < y` on doubles: false as soon as one side is NaN. -/
def Dbl.lt : Dbl K → Dbl K → Bool
  | .nan, _ => false
  | _, .nan => false
  | .pinf, _ => false
  | _, .ninf => false
  | .ninf, _ => true
  | _, .pinf => true
  | .fin x, .fin y => decide (x < y)

/-- C `x >= y` on doubles. -/
def Dbl.ge (x y : Dbl K) : Bool := Dbl.le y x

/-- C `x * y` on doubles (finite products are exact). -/
def Dbl.mul : Dbl K → Dbl K → Dbl K
  | .nan, _ => .nan
  | _, .nan => .nan
  | .fin x, .fin y => .fin (x * y)
  | .pinf, .pinf => .pinf
  | .pinf, .ninf => .ninf
  | .ninf, .pinf => .ninf
  | .ninf, .ninf => .pinf
  | .pinf, .fin y => if 0 < y then .pinf else if y < 0 then .ninf else .nan
  | .ninf, .fin y => if 0 < y then .ninf else if y < 0 then .pinf else .nan
  | .fin x, .pinf => if 0 < x then .pinf else if x < 0 then .ninf else .nan
  | .fin x, .ninf => if 0 < x then .ninf else if x < 0 then .pinf else .nan

/-- C `x - y` on doubles (finite differences are exact). -/
def Dbl.sub : Dbl K → Dbl K → Dbl K
  | .nan, _ => .nan
  | _, .nan => .nan
  | .fin x, .fin y => .fin (x - y)
  | .pinf, .pinf => .nan
  | .ninf, .ninf => .nan
  | .pinf, _ => .pinf
  | .ninf, _ => .ninf
  | .fin _, .pinf => .ninf
  | .fin _, .ninf => .pinf

/-- C `fabs`. -/
def Dbl.fabs : Dbl K → Dbl K
  | .nan => .nan
  | .pinf => .pinf
  | .ninf => .pinf
  | .fin x => .fin |x|

/-- `#define MAX_ITERATIONS 1000` -/
def MAX_ITERATIONS : Nat := 1000

/-- `#define CONVERGENCE_THRESHOLD 0.001` -/
def CONVERGENCE_THRESHOLD : K := 1 / 1000

/-- `#define STEP_SIZE 0.01` -/
def STEP_SIZE : K := 1 / 100

/-- The macro `INFINITY`. -/
def INFINITY : Dbl K := .pinf

/-- The struct `OptimizationResult`. -/
structure OptimizationResult (K : Type) where
  rate : K
  power : K
  bandwidth : K
  latency : K
  deriving DecidableEq, Repr

/-- `objective`: `L = a/x1 + b/x2 + c/x3`. -/
def objective (x1 x2 x3 a b c : K) : K :=
  a / x1 + b / x2 + c / x3

/-- `g1`: slack of `x1 >= R_min`. -/
def g1 (x1 r_min : K) : K := x1 - r_min

/-- `g2`: slack of `x2 <= P_max`. -/
def g2 (x2 p_max : K) : K := p_max - x2

/-- `g3`: slack of `x3 <= B_max`. -/
def g3 (x3 b_max : K) : K := b_max - x3

/-- `gradient`: the three values written through `grad_x1`, `grad_x2`,
`grad_x3`, returned as a triple. -/
def gradient (x1 x2 x3 a b c : K) : K × K × K :=
  (-a / (x1 * x1), -b / (x2 * x2), -c / (x3 * x3))

/-- The variables of `solve_lagrange` that live across loop iterations,
`prev_latency` apart. -/
structure Vars (K : Type) where
  x1 : K
  x2 : K
  x3 : K
  lambda1 : K
  lambda2 : K
  lambda3 : K
  deriving DecidableEq, Repr

/-- Lines 62-69 of `solve_lagrange`: the seeded primal point and the zero
multipliers. -/
def init_vars (r_min p_max b_max : K) : Vars K :=
  ⟨r_min + 1, p_max * (8 / 10), b_max * (8 / 10), 0, 0, 0⟩

/-- Lines 74-105 and the commit of lines 110-112 / 116-118: one pass of the
loop body on the primal and dual variables.  Both branches of the convergence
test commit the same proposed point. -/
def loop_body (r_min p_max b_max a b c : K) (s : Vars K) : Vars K :=
  let grad := gradient s.x1 s.x2 s.x3 a b c
  let grad_x1 := grad.1
  let grad_x2 := grad.2.1
  let grad_x3 := grad.2.2
  let g1_val := g1 s.x1 r_min
  let g2_val := g2 s.x2 p_max
  let g3_val := g3 s.x3 b_max
  let lambda1 := if g1_val < 0 then max 0 (s.lambda1 - STEP_SIZE * g1_val) else 0
  let lambda2 := if g2_val < 0 then max 0 (s.lambda2 - STEP_SIZE * g2_val) else 0
  let lambda3 := if g3_val < 0 then max 0 (s.lambda3 - STEP_SIZE * g3_val) else 0
  let new_x1 := s.x1 - STEP_SIZE * (grad_x1 + lambda1)
  let new_x2 := s.x2 - STEP_SIZE * (grad_x2 - lambda2)
  let new_x3 := s.x3 - STEP_SIZE * (grad_x3 - lambda3)
  let new_x1 := max new_x1 r_min
  let new_x2 := min new_x2 p_max
  let new_x3 := min new_x3 b_max
  ⟨new_x1, new_x2, new_x3, lambda1, lambda2, lambda3⟩

/-- Line 109: `fabs(prev_latency - current_latency) < CONVERGENCE_THRESHOLD`,
where `prev_latency` may still be `INFINITY`. -/
def converged (prev_latency : Dbl K) (current_latency : K) : Bool :=
  Dbl.lt (Dbl.fabs (Dbl.sub prev_latency (.fin current_latency)))
    (.fin CONVERGENCE_THRESHOLD)

/-- The `for` loop of `solve_lagrange` (lines 73-120).  `fuel` is
`MAX_ITERATIONS - iter`; the second component of the result counts the loop
bodies that were run (`iter + 1` at a `break`, `MAX_ITERATIONS` when the loop
condition fails). -/
def solve_loop (r_min p_max b_max a b c : K) :
    Nat → Nat → Dbl K → Vars K → Vars K × Nat
  | 0, iter, _, s => (s, iter)
  | fuel + 1, iter, prev_latency, s =>
    let s1 := loop_body r_min p_max b_max a b c s
    let current_latency := objective s1.x1 s1.x2 s1.x3 a b c
    if converged prev_latency current_latency then (s1, iter + 1)
    else solve_loop r_min p_max b_max a b c fuel (iter + 1) (.fin current_latency) s1

/-- The loop of `solve_lagrange` run from its initial state: final variables
and number of iterations performed. -/
def solve_run (r_min p_max b_max a b c : K) : Vars K × Nat :=
  solve_loop r_min p_max b_max a b c MAX_ITERATIONS 0 INFINITY
    (init_vars r_min p_max b_max)

/-- `solve_lagrange` (lines 57-128). -/
def solve_lagrange (r_min p_max b_max a b c : K) : OptimizationResult K :=
  let s := (solve_run r_min p_max b_max a b c).1
  ⟨s.x1, s.x2, s.x3, objective s.x1 s.x2 s.x3 a b c⟩

/-- Number of loop iterations `solve_lagrange` performs before returning. -/
def solve_iterations (r_min p_max b_max a b c : K) : Nat :=
  (solve_run r_min p_max b_max a b c).2

/-- `validate_inputs` (lines 131-136), on arbitrary doubles. -/
def validate_inputs (r_min p_max b_max a b c : Dbl K) : Int :=
  if Dbl.le r_min (.fin 0) || Dbl.le p_max (.fin 0) || Dbl.le b_max (.fin 0) then 0
  else if Dbl.le a (.fin 0) || Dbl.le b (.fin 0) || Dbl.le c (.fin 0) then 0
  else if Dbl.ge r_min (Dbl.mul b_max (.fin 10)) then 0
  else 1

/-- The `k`-th committed iterate `x^(k)` of the per-iteration update, with
`x^(0)` the seed. -/
def iterate (r_min p_max b_max a b c : K) (k : Nat) : Vars K :=
  (loop_body r_min p_max b_max a b c)^[k] (init_vars r_min p_max b_max)

/-- The objective at the primal part of a loop state. -/
def latency_of (a b c : K) (s : Vars K) : K :=
  objective s.x1 s.x2 s.x3 a b c

/-- C `isfinite`: neither NaN nor an infinity. -/
def Dbl.isfinite : Dbl K → Bool
  | .fin _ => true
  | _ => false

/-- Feasibility and positivity of the primal part of a loop state. -/
def Feasible (r_min p_max b_max : K) (s : Vars K) : Prop :=
  r_min ≤ s.x1 ∧ 0 < s.x1 ∧ 0 < s.x2 ∧ s.x2 ≤ p_max ∧ 0 < s.x3 ∧ s.x3 ≤ b_max

instance (r_min p_max b_max : K) (s : Vars K) :
    Decidable (Feasible r_min p_max b_max s) := by
  unfold Feasible
  infer_instance

/-- The value of `prev_latency` when loop body number `j` (counted from 0)
starts, in a run of the loop entered with `prev_latency = prev` in state `s`. -/
def prev_at (r_min p_max b_max a b c : K) (prev : Dbl K) (s : Vars K) (j : Nat) : Dbl K :=
  if j = 0 then prev
  else .fin (latency_of a b c ((loop_body r_min p_max b_max a b c)^[j] s))

/-- Lines 76-100 of `solve_lagrange`: the three proposed values `new_x1`,
`new_x2`, `new_x3` as they stand before the projection of lines 103-105. -/
def unprojected (r_min p_max b_max a b c : K) (s : Vars K) : K × K × K :=
  let grad := gradient s.x1 s.x2 s.x3 a b c
  let grad_x1 := grad.1
  let grad_x2 := grad.2.1
  let grad_x3 := grad.2.2
  let g1_val := g1 s.x1 r_min
  let g2_val := g2 s.x2 p_max
  let g3_val := g3 s.x3 b_max
  let lambda1 := if g1_val < 0 then max 0 (s.lambda1 - STEP_SIZE * g1_val) else 0
  let lambda2 := if g2_val < 0 then max 0 (s.lambda2 - STEP_SIZE * g2_val) else 0
  let lambda3 := if g3_val < 0 then max 0 (s.lambda3 - STEP_SIZE * g3_val) else 0
  (s.x1 - STEP_SIZE * (grad_x1 + lambda1),
   s.x2 - STEP_SIZE * (grad_x2 - lambda2),
   s.x3 - STEP_SIZE * (grad_x3 - lambda3))

/-- The primal part `(x1, x2, x3)` of a loop state. -/
def primal (s : Vars K) : K × K × K := (s.x1, s.x2, s.x3)

/-- Specification side of the refinement: the update of the multiplier-free
solver, `new_x1 = max(x1 + 0.01*a/x1^2, r_min)`,
`new_x2 = min(x2 + 0.01*b/x2^2, p_max)`, `new_x3 = min(x3 + 0.01*c/x3^2, b_max)`. -/
def multiplier_free_update (r_min p_max b_max a b c : K) (x : K × K × K) : K × K × K :=
  (max (x.1 + 1 / 100 * a / x.1 ^ 2) r_min,
   min (x.2.1 + 1 / 100 * b / x.2.1 ^ 2) p_max,
   min (x.2.2 + 1 / 100 * c / x.2.2 ^ 2) b_max)

/-- Specification side of the refinement: the loop of the multiplier-free
solver, with the convergence test and the cap of `solve_lagrange`. -/
def multiplier_free_loop (r_min p_max b_max a b c : K) :
    Nat → Dbl K → K × K × K → K × K × K
  | 0, _, x => x
  | fuel + 1, prev_latency, x =>
    let x1 := multiplier_free_update r_min p_max b_max a b c x
    let current_latency := objective x1.1 x1.2.1 x1.2.2 a b c
    if converged prev_latency current_latency then x1
    else multiplier_free_loop r_min p_max b_max a b c fuel (.fin current_latency) x1

/-- Specification side of the refinement: the multiplier-free solver, started
from the seed `(r_min + 1, 0.8 * p_max, 0.8 * b_max)`. -/
def multiplier_free_solve (r_min p_max b_max a b c : K) : OptimizationResult K :=
  let x := multiplier_free_loop r_min p_max b_max a b c MAX_ITERATIONS INFINITY
    (r_min + 1, p_max * (8 / 10), b_max * (8 / 10))
  ⟨x.1, x.2.1, x.2.2, objective x.1 x.2.1 x.2.2 a b c⟩

/-- Round a rational to the nearest integer, ties to the even one. -/
def round_half_even (x : ℚ) : ℤ :=
  if x - ⌊x⌋ < 1 / 2 then ⌊x⌋
  else if 1 / 2 < x - ⌊x⌋ then ⌊x⌋ + 1
  else if ⌊x⌋ % 2 = 0 then ⌊x⌋ else ⌊x⌋ + 1

/-- IEEE-754 binary64 rounding of an exact result `q` (round to nearest, ties
to even): the unit in the last place is `2 ^ e` with
`e = max (floor (log2 |q|)) (-1022) - 52`, so significands have 53 bits and
subnormals are multiples of `2 ^ (-1074)`; a rounded magnitude of `2 ^ 1024` or
more is an overflow to the infinity of the sign of `q`.  The sign of a zero is
not recorded. -/
def round_double (q : ℚ) : Dbl ℚ :=
  let e := max (Int.log 2 |q|) (-1022) - 52
  let v := (round_half_even (q / 2 ^ e) : ℚ) * 2 ^ e
  if (2 : ℚ) ^ (1024 : ℤ) ≤ |v| then (if 0 < q then .pinf else .ninf) else .fin v

/-- Round the finite result of an exact operation, keep a special value. -/
def Dbl.rounded : Dbl ℚ → Dbl ℚ
  | .fin v => round_double v
  | d => d

/-- Exact `x + y` on doubles, before rounding. -/
def Dbl.add : Dbl ℚ → Dbl ℚ → Dbl ℚ
  | .nan, _ => .nan
  | _, .nan => .nan
  | .fin x, .fin y => .fin (x + y)
  | .pinf, .ninf => .nan
  | .ninf, .pinf => .nan
  | .pinf, _ => .pinf
  | .ninf, _ => .ninf
  | .fin _, .pinf => .pinf
  | .fin _, .ninf => .ninf

/-- Exact `x / y` on doubles, before rounding; a zero divisor is read as `+0`. -/
def Dbl.div : Dbl ℚ → Dbl ℚ → Dbl ℚ
  | .nan, _ => .nan
  | _, .nan => .nan
  | .fin x, .fin y =>
    if y = 0 then (if 0 < x then .pinf else if x < 0 then .ninf else .nan)
    else .fin (x / y)
  | .fin _, .pinf => .fin 0
  | .fin _, .ninf => .fin 0
  | .pinf, .fin y => if y < 0 then .ninf else .pinf
  | .ninf, .fin y => if y < 0 then .pinf else .ninf
  | .pinf, .pinf => .nan
  | .pinf, .ninf => .nan
  | .ninf, .pinf => .nan
  | .ninf, .ninf => .nan

/-- C unary minus on doubles. -/
def Dbl.neg : Dbl ℚ → Dbl ℚ
  | .nan => .nan
  | .pinf => .ninf
  | .ninf => .pinf
  | .fin x => .fin (-x)

/-- C `x + y` in double precision. -/
def fp_add (x y : Dbl ℚ) : Dbl ℚ := Dbl.rounded (Dbl.add x y)

/-- C `x - y` in double precision. -/
def fp_sub (x y : Dbl ℚ) : Dbl ℚ := Dbl.rounded (Dbl.sub x y)

/-- C `x * y` in double precision. -/
def fp_mul (x y : Dbl ℚ) : Dbl ℚ := Dbl.rounded (Dbl.mul x y)

/-- C `x / y` in double precision. -/
def fp_div (x y : Dbl ℚ) : Dbl ℚ := Dbl.rounded (Dbl.div x y)

/-- C `fmax`: a NaN argument is ignored in favour of the other one. -/
def fp_max : Dbl ℚ → Dbl ℚ → Dbl ℚ
  | .nan, y => y
  | x, .nan => x
  | x, y => if Dbl.lt x y then y else x

/-- C `fmin`: a NaN argument is ignored in favour of the other one. -/
def fp_min : Dbl ℚ → Dbl ℚ → Dbl ℚ
  | .nan, y => y
  | x, .nan => x
  | x, y => if Dbl.lt y x then y else x

/-- The double nearest to the literal `0.01` of `STEP_SIZE`. -/
def STEP_SIZE_fp : Dbl ℚ := round_double (1 / 100)

/-- Lines 62-69 of `solve_lagrange` in double precision. -/
def init_vars_fp (r_min p_max b_max : Dbl ℚ) : Vars (Dbl ℚ) :=
  ⟨fp_add r_min (.fin 1), fp_mul p_max (round_double (8 / 10)),
    fp_mul b_max (round_double (8 / 10)), .fin 0, .fin 0, .fin 0⟩

/-- The three divisors `x1 * x1`, `x2 * x2`, `x3 * x3` of `gradient`, as
computed in double precision. -/
def gradient_divisors_fp (x1 x2 x3 : Dbl ℚ) : Dbl ℚ × Dbl ℚ × Dbl ℚ :=
  (fp_mul x1 x1, fp_mul x2 x2, fp_mul x3 x3)

/-- `gradient` in double precision. -/
def gradient_fp (x1 x2 x3 a b c : Dbl ℚ) : Dbl ℚ × Dbl ℚ × Dbl ℚ :=
  (fp_div (Dbl.neg a) (gradient_divisors_fp x1 x2 x3).1,
   fp_div (Dbl.neg b) (gradient_divisors_fp x1 x2 x3).2.1,
   fp_div (Dbl.neg c) (gradient_divisors_fp x1 x2 x3).2.2)

/-- One pass of the loop body of `solve_lagrange` (lines 74-118) in double
precision: every arithmetic operation of `loop_body` is followed by a
rounding. -/
def loop_body_fp (r_min p_max b_max a b c : Dbl ℚ) (s : Vars (Dbl ℚ)) : Vars (Dbl ℚ) :=
  let grad := gradient_fp s.x1 s.x2 s.x3 a b c
  let grad_x1 := grad.1
  let grad_x2 := grad.2.1
  let grad_x3 := grad.2.2
  let g1_val := fp_sub s.x1 r_min
  let g2_val := fp_sub p_max s.x2
  let g3_val := fp_sub b_max s.x3
  let lambda1 := if Dbl.lt g1_val (.fin 0)
    then fp_max (.fin 0) (fp_sub s.lambda1 (fp_mul STEP_SIZE_fp g1_val)) else .fin 0
  let lambda2 := if Dbl.lt g2_val (.fin 0)
    then fp_max (.fin 0) (fp_sub s.lambda2 (fp_mul STEP_SIZE_fp g2_val)) else .fin 0
  let lambda3 := if Dbl.lt g3_val (.fin 0)
    then fp_max (.fin 0) (fp_sub s.lambda3 (fp_mul STEP_SIZE_fp g3_val)) else .fin 0
  let new_x1 := fp_sub s.x1 (fp_mul STEP_SIZE_fp (fp_add grad_x1 lambda1))
  let new_x2 := fp_sub s.x2 (fp_mul STEP_SIZE_fp (fp_sub grad_x2 lambda2))
  let new_x3 := fp_sub s.x3 (fp_mul STEP_SIZE_fp (fp_sub grad_x3 lambda3))
  let new_x1 := fp_max new_x1 r_min
  let new_x2 := fp_min new_x2 p_max
  let new_x3 := fp_min new_x3 b_max
  ⟨new_x1, new_x2, new_x3, lambda1, lambda2, lambda3⟩

/-- `validate_inputs` (lines 131-136) in double precision: the product
`b_max * 10` is rounded. -/
def validate_inputs_fp (r_min p_max b_max a b c : Dbl ℚ) : Int :=
  if Dbl.le r_min (.fin 0) || Dbl.le p_max (.fin 0) || Dbl.le b_max (.fin 0) then 0
  else if Dbl.le a (.fin 0) || Dbl.le b (.fin 0) || Dbl.le c (.fin 0) then 0
  else if Dbl.ge r_min (fp_mul b_max (.fin 10)) then 0
  else 1

/-- The double nearest to the literal `0.001` of `CONVERGENCE_THRESHOLD`. -/
def CONVERGENCE_THRESHOLD_fp : Dbl ℚ := round_double (1 / 1000)

/-- `objective` in double precision. -/
def objective_fp (x1 x2 x3 a b c : Dbl ℚ) : Dbl ℚ :=
  fp_add (fp_add (fp_div a x1) (fp_div b x2)) (fp_div c x3)

/-- Line 109 in double precision. -/
def converged_fp (prev_latency current_latency : Dbl ℚ) : Bool :=
  Dbl.lt (Dbl.fabs (fp_sub prev_latency current_latency)) CONVERGENCE_THRESHOLD_fp

/-- The `for` loop of `solve_lagrange` in double precision; `fuel` is
`MAX_ITERATIONS - iter`. -/
def solve_loop_fp (r_min p_max b_max a b c : Dbl ℚ) :
    Nat → Dbl ℚ → Vars (Dbl ℚ) → Vars (Dbl ℚ)
  | 0, _, s => s
  | fuel + 1, prev_latency, s =>
    let s1 := loop_body_fp r_min p_max b_max a b c s
    let current_latency := objective_fp s1.x1 s1.x2 s1.x3 a b c
    if converged_fp prev_latency current_latency then s1
    else solve_loop_fp r_min p_max b_max a b c fuel current_latency s1

/-- `solve_lagrange` in double precision. -/
def solve_lagrange_fp (r_min p_max b_max a b c : Dbl ℚ) : OptimizationResult (Dbl ℚ) :=
  let s := solve_loop_fp r_min p_max b_max a b c MAX_ITERATIONS INFINITY
    (init_vars_fp r_min p_max b_max)
  ⟨s.x1, s.x2, s.x3, objective_fp s.x1 s.x2 s.x3 a b c⟩

end Defs

section Lemmas

variable {K : Type} [LinearOrderedField K]

theorem validate_inputs_fin_iff (r_min p_max b_max a b c : K) :
    validate_inputs (.fin r_min) (.fin p_max) (.fin b_max) (.fin a) (.fin b) (.fin c) = 1
      ↔ 0 < r_min ∧ 0 < p_max ∧ 0 < b_max ∧ 0 < a ∧ 0 < b ∧ 0 < c ∧ r_min < b_max * 10 := by
  simp only [validate_inputs, Dbl.le, Dbl.ge, Dbl.mul, Bool.or_eq_true, decide_eq_true_eq]
  constructor
  · intro h
    split_ifs at h with h1 h2 h3
    · simp at h
    · simp at h
    · simp at h
    · push_neg at h1 h2 h3
      exact ⟨h1.1.1, h1.1.2, h1.2, h2.1.1, h2.1.2, h2.2, h3⟩
  · rintro ⟨h1, h2, h3, h4, h5, h6, h7⟩
    rw [if_neg, if_neg, if_neg]
    · exact not_le.mpr h7
    · push_neg; exact ⟨⟨h4, h5⟩, h6⟩
    · push_neg; exact ⟨⟨h1, h2⟩, h3⟩

theorem converged_pinf (cur : K) : converged (Dbl.pinf : Dbl K) cur = false := by
  simp [converged, Dbl.sub, Dbl.fabs, Dbl.lt]

theorem converged_fin (p cur : K) :
    converged (Dbl.fin p) cur = true ↔ |p - cur| < 1 / 1000 := by
  simp [converged, Dbl.sub, Dbl.fabs, Dbl.lt, CONVERGENCE_THRESHOLD]

theorem prev_at_succ (r_min p_max b_max a b c : K) (prev : Dbl K) (s : Vars K) (j : Nat) :
    prev_at r_min p_max b_max a b c
        (.fin (latency_of a b c (loop_body r_min p_max b_max a b c s)))
        (loop_body r_min p_max b_max a b c s) j
      = prev_at r_min p_max b_max a b c prev s (j + 1) := by
  unfold prev_at
  by_cases hj : j = 0
  · subst hj
    simp
  · simp [hj, Function.iterate_succ_apply]

theorem solve_loop_spec (r_min p_max b_max a b c : K) :
    ∀ (fuel iter : Nat) (prev : Dbl K) (s : Vars K),
      ∃ m, m ≤ fuel ∧ (0 < fuel → 0 < m) ∧
        solve_loop r_min p_max b_max a b c fuel iter prev s
          = ((loop_body r_min p_max b_max a b c)^[m] s, iter + m) ∧
        (m < fuel →
          converged (prev_at r_min p_max b_max a b c prev s (m - 1))
            (latency_of a b c ((loop_body r_min p_max b_max a b c)^[m] s)) = true) ∧
        ∀ j, j + 1 < m →
          converged (prev_at r_min p_max b_max a b c prev s j)
            (latency_of a b c ((loop_body r_min p_max b_max a b c)^[j + 1] s)) = false := by
  intro fuel
  induction fuel with
  | zero =>
    intro iter prev s
    exact ⟨0, le_refl _, by simp, by simp [solve_loop], by simp, by simp⟩
  | succ fuel ih =>
    intro iter prev s
    by_cases hc : converged prev
        (latency_of a b c (loop_body r_min p_max b_max a b c s)) = true
    · refine ⟨1, by omega, by simp, ?_, ?_, ?_⟩
      · simp only [latency_of] at hc
        simp [solve_loop, hc]
      · intro _
        simpa [prev_at] using hc
      · intro j hj
        omega
    · obtain ⟨m, hm, hpos, hrun, hlast, hbefore⟩ :=
        ih (iter + 1) (.fin (latency_of a b c (loop_body r_min p_max b_max a b c s)))
          (loop_body r_min p_max b_max a b c s)
      refine ⟨m + 1, by omega, by simp, ?_, ?_, ?_⟩
      · simp only [latency_of] at hc hrun
        simp only [solve_loop, hc, Function.iterate_succ_apply]
        simp [hrun, Nat.add_assoc, Nat.add_comm 1 m]
      · intro hlt
        have hm0 : m < fuel := by omega
        have hm1 : 0 < m := hpos (by omega)
        have h := hlast hm0
        rw [prev_at_succ r_min p_max b_max a b c prev s (m - 1)] at h
        have e : m - 1 + 1 = m := by omega
        rw [e] at h
        simpa [Function.iterate_succ_apply] using h
      · intro j hj
        rcases Nat.eq_zero_or_pos j with h0 | hj0
        · subst h0
          simpa [prev_at] using hc
        · obtain ⟨i, rfl⟩ : ∃ i, j = i + 1 := ⟨j - 1, by omega⟩
          have h := hbefore i (by omega)
          rw [prev_at_succ r_min p_max b_max a b c prev s i] at h
          simpa [Function.iterate_succ_apply] using h

theorem loop_body_of_slack (r_min p_max b_max a b c : K) (s : Vars K)
    (h1 : r_min ≤ s.x1) (h2 : s.x2 ≤ p_max) (h3 : s.x3 ≤ b_max) :
    loop_body r_min p_max b_max a b c s
      = ⟨max (s.x1 + 1 / 100 * (a / (s.x1 * s.x1))) r_min,
         min (s.x2 + 1 / 100 * (b / (s.x2 * s.x2))) p_max,
         min (s.x3 + 1 / 100 * (c / (s.x3 * s.x3))) b_max, 0, 0, 0⟩ := by
  have e1 : ¬ s.x1 - r_min < 0 := by linarith
  have e2 : ¬ p_max - s.x2 < 0 := by linarith
  have e3 : ¬ b_max - s.x3 < 0 := by linarith
  simp only [loop_body, gradient, g1, g2, g3, STEP_SIZE, e1, e2, e3, if_false]
  congr 2 <;> ring

theorem feasible_init (r_min p_max b_max : K)
    (hr : 0 < r_min) (hp : 0 < p_max) (hb : 0 < b_max) :
    Feasible r_min p_max b_max (init_vars r_min p_max b_max) := by
  simp only [Feasible, init_vars]
  refine ⟨by linarith, by linarith, by positivity, by linarith, by positivity, by linarith⟩

theorem feasible_step (r_min p_max b_max a b c : K) (s : Vars K)
    (ha : 0 < a) (hb' : 0 < b) (hc : 0 < c)
    (hs : Feasible r_min p_max b_max s) :
    Feasible r_min p_max b_max (loop_body r_min p_max b_max a b c s) ∧
      s.x1 < (loop_body r_min p_max b_max a b c s).x1 ∧
      s.x2 ≤ (loop_body r_min p_max b_max a b c s).x2 ∧
      s.x3 ≤ (loop_body r_min p_max b_max a b c s).x3 := by
  obtain ⟨h1, h2, h3, h4, h5, h6⟩ := hs
  rw [loop_body_of_slack r_min p_max b_max a b c s h1 h4 h6]
  have d1 : 0 < 1 / 100 * (a / (s.x1 * s.x1)) := by positivity
  have d2 : 0 < 1 / 100 * (b / (s.x2 * s.x2)) := by positivity
  have d3 : 0 < 1 / 100 * (c / (s.x3 * s.x3)) := by positivity
  have k1 : s.x1 < max (s.x1 + 1 / 100 * (a / (s.x1 * s.x1))) r_min :=
    lt_max_of_lt_left (by linarith)
  have k2 : s.x2 ≤ min (s.x2 + 1 / 100 * (b / (s.x2 * s.x2))) p_max :=
    le_min (by linarith) h4
  have k3 : s.x3 ≤ min (s.x3 + 1 / 100 * (c / (s.x3 * s.x3))) b_max :=
    le_min (by linarith) h6
  refine ⟨⟨le_max_right _ _, lt_trans h2 k1, lt_of_lt_of_le h3 k2, min_le_right _ _,
    lt_of_lt_of_le h5 k3, min_le_right _ _⟩, k1, k2, k3⟩

theorem latency_step_le (r_min p_max b_max a b c : K) (s : Vars K)
    (ha : 0 < a) (hb' : 0 < b) (hc : 0 < c)
    (hs : Feasible r_min p_max b_max s) :
    latency_of a b c (loop_body r_min p_max b_max a b c s) ≤ latency_of a b c s := by
  obtain ⟨_, k1, k2, k3⟩ := feasible_step r_min p_max b_max a b c s ha hb' hc hs
  obtain ⟨_, h2, h3, _, h5, _⟩ := hs
  simp only [latency_of, objective]
  have e1 := div_le_div_of_nonneg_left ha.le h2 k1.le
  have e2 := div_le_div_of_nonneg_left hb'.le h3 k2
  have e3 := div_le_div_of_nonneg_left hc.le h5 k3
  linarith

theorem feasible_iterate (r_min p_max b_max a b c : K)
    (hr : 0 < r_min) (hp : 0 < p_max) (hb : 0 < b_max)
    (ha : 0 < a) (hb' : 0 < b) (hc : 0 < c) (k : Nat) :
    Feasible r_min p_max b_max (iterate r_min p_max b_max a b c k) := by
  induction k with
  | zero => exact feasible_init r_min p_max b_max hr hp hb
  | succ k ih =>
    simp only [iterate, Function.iterate_succ_apply']
    exact (feasible_step r_min p_max b_max a b c _ ha hb' hc ih).1

theorem latency_iterate_le_seed (r_min p_max b_max a b c : K)
    (hr : 0 < r_min) (hp : 0 < p_max) (hb : 0 < b_max)
    (ha : 0 < a) (hb' : 0 < b) (hc : 0 < c) (k : Nat) :
    latency_of a b c (iterate r_min p_max b_max a b c k)
      ≤ latency_of a b c (iterate r_min p_max b_max a b c 0) := by
  induction k with
  | zero => exact le_refl _
  | succ k ih =>
    have hf := feasible_iterate r_min p_max b_max a b c hr hp hb ha hb' hc k
    have h := latency_step_le r_min p_max b_max a b c _ ha hb' hc hf
    simp only [iterate, Function.iterate_succ_apply'] at h ih ⊢
    exact le_trans h ih

theorem solve_run_spec (r_min p_max b_max a b c : K) :
    ∃ n, 2 ≤ n ∧ n ≤ 1000 ∧
      solve_run r_min p_max b_max a b c = (iterate r_min p_max b_max a b c n, n) ∧
      (n = 1000 ∨
        |latency_of a b c (iterate r_min p_max b_max a b c (n - 1))
          - latency_of a b c (iterate r_min p_max b_max a b c n)| < 1 / 1000) ∧
      ∀ k, 2 ≤ k → k < n →
        ¬ |latency_of a b c (iterate r_min p_max b_max a b c (k - 1))
          - latency_of a b c (iterate r_min p_max b_max a b c k)| < 1 / 1000 := by
  obtain ⟨m, hm, hpos, hrun, hlast, hbefore⟩ :=
    solve_loop_spec r_min p_max b_max a b c MAX_ITERATIONS 0 INFINITY
      (init_vars r_min p_max b_max)
  have hM : MAX_ITERATIONS = 1000 := rfl
  rw [hM] at hm hpos hrun hlast
  have h1 : 0 < m := hpos (by norm_num)
  have h2 : 2 ≤ m := by
    by_contra hlt
    have hm1 : m = 1 := by omega
    subst hm1
    have h := hlast (by norm_num)
    simp [prev_at, INFINITY, converged_pinf] at h
  refine ⟨m, h2, hm, ?_, ?_, ?_⟩
  · simp [solve_run, hM, hrun, iterate]
  · rcases Nat.lt_or_ge m 1000 with hlt | hge
    · right
      have h := hlast hlt
      have hne : m - 1 ≠ 0 := by omega
      simp only [prev_at, hne, if_false] at h
      exact (converged_fin _ _).mp h
    · left
      omega
  · intro k hk2 hkn hconv
    have h := hbefore (k - 1) (by omega)
    have hne : k - 1 ≠ 0 := by omega
    have e : k - 1 + 1 = k := by omega
    simp only [prev_at, hne, if_false, e] at h
    have h' := (converged_fin _ _).mpr hconv
    simp only [iterate] at h'
    rw [h] at h'
    exact Bool.false_ne_true h'

theorem usage_example_step1 :
    loop_body (5 : ℚ) (5 / 2) 20 (6 / 5) (4 / 5) (1 / 2) (init_vars 5 (5 / 2) 20)
      = ⟨18001 / 3000, 1001 / 500, 819201 / 51200, 0, 0, 0⟩ := by
  norm_num [loop_body, init_vars, gradient, g1, g2, g3, STEP_SIZE]

theorem usage_example_step2 :
    loop_body (5 : ℚ) (5 / 2) 20 (6 / 5) (4 / 5) (1 / 2)
        ⟨18001 / 3000, 1001 / 500, 819201 / 51200, 0, 0, 0⟩
      = ⟨5833296054001 / 972108003000, 1004003001 / 501000500,
          549758498245017601 / 34359822254131200, 0, 0, 0⟩ := by
  norm_num [loop_body, gradient, g1, g2, g3, STEP_SIZE]

theorem usage_example_converged :
    converged (Dbl.fin (objective (18001 / 3000 : ℚ) (1001 / 500) (819201 / 51200)
        (6 / 5) (4 / 5) (1 / 2)))
      (objective (5833296054001 / 972108003000 : ℚ) (1004003001 / 501000500)
        (549758498245017601 / 34359822254131200) (6 / 5) (4 / 5) (1 / 2)) = true := by
  rw [converged_fin]
  norm_num [objective, abs_lt]

theorem usage_example_run :
    solve_run (5 : ℚ) (5 / 2) 20 (6 / 5) (4 / 5) (1 / 2)
      = (⟨5833296054001 / 972108003000, 1004003001 / 501000500,
          549758498245017601 / 34359822254131200, 0, 0, 0⟩, 2) := by
  have e : MAX_ITERATIONS = 998 + 1 + 1 := rfl
  rw [solve_run, e, solve_loop]
  simp only [INFINITY, converged_pinf, usage_example_step1]
  rw [solve_loop]
  simp only [usage_example_step2]
  rw [if_pos usage_example_converged]
  simp

theorem iterate_succ (r_min p_max b_max a b c : K) (k : Nat) :
    iterate r_min p_max b_max a b c (k + 1)
      = loop_body r_min p_max b_max a b c (iterate r_min p_max b_max a b c k) := by
  simp only [iterate, Function.iterate_succ_apply']

theorem iterate_step (r_min p_max b_max a b c : K)
    (hr : 0 < r_min) (hp : 0 < p_max) (hb : 0 < b_max)
    (ha : 0 < a) (hb' : 0 < b) (hc : 0 < c) (k : Nat) :
    (iterate r_min p_max b_max a b c k).x1 < (iterate r_min p_max b_max a b c (k + 1)).x1 ∧
    (iterate r_min p_max b_max a b c k).x2 ≤ (iterate r_min p_max b_max a b c (k + 1)).x2 ∧
    (iterate r_min p_max b_max a b c k).x3 ≤ (iterate r_min p_max b_max a b c (k + 1)).x3 := by
  have hf := feasible_iterate r_min p_max b_max a b c hr hp hb ha hb' hc k
  rw [iterate_succ]
  exact (feasible_step r_min p_max b_max a b c _ ha hb' hc hf).2

theorem seed_le_iterate (r_min p_max b_max a b c : K)
    (hr : 0 < r_min) (hp : 0 < p_max) (hb : 0 < b_max)
    (ha : 0 < a) (hb' : 0 < b) (hc : 0 < c) (k : Nat) :
    r_min + 1 ≤ (iterate r_min p_max b_max a b c k).x1 ∧
    p_max * (8 / 10) ≤ (iterate r_min p_max b_max a b c k).x2 ∧
    b_max * (8 / 10) ≤ (iterate r_min p_max b_max a b c k).x3 := by
  induction k with
  | zero => simp [iterate, init_vars]
  | succ k ih =>
    obtain ⟨h1, h2, h3⟩ := iterate_step r_min p_max b_max a b c hr hp hb ha hb' hc k
    exact ⟨le_trans ih.1 h1.le, le_trans ih.2.1 h2, le_trans ih.2.2 h3⟩

theorem seed_lt_iterate_x1 (r_min p_max b_max a b c : K)
    (hr : 0 < r_min) (hp : 0 < p_max) (hb : 0 < b_max)
    (ha : 0 < a) (hb' : 0 < b) (hc : 0 < c) (k : Nat) (hk : 0 < k) :
    r_min + 1 < (iterate r_min p_max b_max a b c k).x1 := by
  obtain ⟨j, rfl⟩ : ∃ j, k = j + 1 := ⟨k - 1, by omega⟩
  exact lt_of_le_of_lt (seed_le_iterate r_min p_max b_max a b c hr hp hb ha hb' hc j).1
    (iterate_step r_min p_max b_max a b c hr hp hb ha hb' hc j).1

theorem unprojected_of_slack (r_min p_max b_max a b c : K) (s : Vars K)
    (h1 : r_min ≤ s.x1) (h2 : s.x2 ≤ p_max) (h3 : s.x3 ≤ b_max) :
    unprojected r_min p_max b_max a b c s
      = (s.x1 + 1 / 100 * (a / (s.x1 * s.x1)),
         s.x2 + 1 / 100 * (b / (s.x2 * s.x2)),
         s.x3 + 1 / 100 * (c / (s.x3 * s.x3))) := by
  have e1 : ¬ s.x1 - r_min < 0 := by linarith
  have e2 : ¬ p_max - s.x2 < 0 := by linarith
  have e3 : ¬ b_max - s.x3 < 0 := by linarith
  simp only [unprojected, gradient, g1, g2, g3, STEP_SIZE, e1, e2, e3, if_false]
  refine Prod.ext ?_ (Prod.ext ?_ ?_) <;> simp only <;> ring

theorem loop_body_eq_project (r_min p_max b_max a b c : K) (s : Vars K) :
    (loop_body r_min p_max b_max a b c s).x1
        = max (unprojected r_min p_max b_max a b c s).1 r_min ∧
    (loop_body r_min p_max b_max a b c s).x2
        = min (unprojected r_min p_max b_max a b c s).2.1 p_max ∧
    (loop_body r_min p_max b_max a b c s).x3
        = min (unprojected r_min p_max b_max a b c s).2.2 b_max :=
  ⟨rfl, rfl, rfl⟩

theorem primal_loop_body (r_min p_max b_max a b c : K) (s : Vars K)
    (hs : Feasible r_min p_max b_max s) :
    primal (loop_body r_min p_max b_max a b c s)
      = multiplier_free_update r_min p_max b_max a b c (primal s) := by
  obtain ⟨h1, _, _, h4, _, h6⟩ := hs
  rw [loop_body_of_slack r_min p_max b_max a b c s h1 h4 h6]
  simp only [primal, multiplier_free_update]
  have e : ∀ u x : K, 1 / 100 * (u / (x * x)) = 1 / 100 * u / x ^ 2 := by
    intro u x
    rw [pow_two, mul_div_assoc]
  rw [e, e, e]

theorem solve_loop_refines (r_min p_max b_max a b c : K)
    (ha : 0 < a) (hb' : 0 < b) (hc : 0 < c) :
    ∀ (fuel iter : Nat) (prev : Dbl K) (s : Vars K), Feasible r_min p_max b_max s →
      primal (solve_loop r_min p_max b_max a b c fuel iter prev s).1
        = multiplier_free_loop r_min p_max b_max a b c fuel prev (primal s) := by
  intro fuel
  induction fuel with
  | zero =>
    intro iter prev s _
    simp [solve_loop, multiplier_free_loop]
  | succ fuel ih =>
    intro iter prev s hs
    have hstep := primal_loop_body r_min p_max b_max a b c s hs
    have hf := (feasible_step r_min p_max b_max a b c s ha hb' hc hs).1
    have hobj : objective (loop_body r_min p_max b_max a b c s).x1
          (loop_body r_min p_max b_max a b c s).x2
          (loop_body r_min p_max b_max a b c s).x3 a b c
        = objective (multiplier_free_update r_min p_max b_max a b c (primal s)).1
          (multiplier_free_update r_min p_max b_max a b c (primal s)).2.1
          (multiplier_free_update r_min p_max b_max a b c (primal s)).2.2 a b c := by
      rw [← hstep]
      rfl
    simp only [solve_loop, multiplier_free_loop, hobj]
    split_ifs with hcv
    · exact hstep
    · rw [ih (iter + 1) _ _ hf, hstep]

theorem loop_body_x1_of_feasible (r_min p_max b_max a b c : K) (s : Vars K)
    (ha : 0 < a) (hs : Feasible r_min p_max b_max s) :
    (loop_body r_min p_max b_max a b c s).x1 = s.x1 + 1 / 100 * (a / (s.x1 * s.x1)) := by
  obtain ⟨h1, h2, _, h4, _, h6⟩ := hs
  rw [loop_body_of_slack r_min p_max b_max a b c s h1 h4 h6]
  have d1 : 0 < 1 / 100 * (a / (s.x1 * s.x1)) := by positivity
  exact max_eq_left (by linarith)

theorem cap_example_x1_succ (k : Nat) :
    (iterate (1 : ℚ) 1 1 1000 1 1 (k + 1)).x1
      = (iterate (1 : ℚ) 1 1 1000 1 1 k).x1
        + 1 / 100 * (1000 / ((iterate (1 : ℚ) 1 1 1000 1 1 k).x1 * (iterate (1 : ℚ) 1 1 1000 1 1 k).x1)) := by
  rw [iterate_succ]
  exact loop_body_x1_of_feasible 1 1 1 1000 1 1 _ (by norm_num)
    (feasible_iterate 1 1 1 1000 1 1 (by norm_num) (by norm_num) (by norm_num)
      (by norm_num) (by norm_num) (by norm_num) k)

theorem cap_example_x1_ge (k : Nat) : 2 ≤ (iterate (1 : ℚ) 1 1 1000 1 1 k).x1 := by
  have h := (seed_le_iterate (1 : ℚ) 1 1 1000 1 1 (by norm_num) (by norm_num) (by norm_num)
    (by norm_num) (by norm_num) (by norm_num) k).1
  linarith

theorem cube_step_le (x d : ℚ) (hx : 2 ≤ x) (hd : d * (x * x) = 10) :
    (x + d) ^ 3 ≤ x ^ 3 + 84 := by
  have hx0 : 0 < x := by linarith
  have hd0 : 0 < d := by
    by_contra hneg
    have hle : d ≤ 0 := not_lt.mp hneg
    have : d * (x * x) ≤ 0 := mul_nonpos_of_nonpos_of_nonneg hle (by positivity)
    linarith
  have hxd : x * d ≤ 5 := by
    have e : (x * d) * x = 10 := by rw [← hd]; ring
    have : (x * d) * 2 ≤ (x * d) * x :=
      mul_le_mul_of_nonneg_left hx (by positivity)
    linarith
  have hd2 : d ≤ 5 / 2 := by
    have : d * 2 ≤ d * x := mul_le_mul_of_nonneg_left hx hd0.le
    have e : d * x = x * d := mul_comm _ _
    linarith
  have h1 : x * d * d ≤ 5 * (5 / 2) :=
    mul_le_mul hxd hd2 hd0.le (by norm_num)
  have h2 : d * d ≤ 5 / 2 * (5 / 2) := mul_le_mul hd2 hd2 hd0.le (by norm_num)
  have h3 : d * d * d ≤ 5 / 2 * (5 / 2) * (5 / 2) :=
    mul_le_mul h2 hd2 hd0.le (by norm_num)
  have expand : (x + d) ^ 3 = x ^ 3 + 3 * (d * (x * x)) + 3 * (x * d * d) + d * d * d := by
    ring
  rw [expand, hd]
  linarith

theorem cap_example_x1_cube (k : Nat) :
    (iterate (1 : ℚ) 1 1 1000 1 1 k).x1 ^ 3 ≤ 27 + 84 * (k : ℚ) := by
  induction k with
  | zero => norm_num [iterate, init_vars]
  | succ k ih =>
    have hx := cap_example_x1_ge k
    have hx0 : (iterate (1 : ℚ) 1 1 1000 1 1 k).x1 ≠ 0 := by linarith
    rw [cap_example_x1_succ]
    have hd : 1 / 100 * (1000 / ((iterate (1 : ℚ) 1 1 1000 1 1 k).x1 * (iterate (1 : ℚ) 1 1 1000 1 1 k).x1))
        * ((iterate (1 : ℚ) 1 1 1000 1 1 k).x1 * (iterate (1 : ℚ) 1 1 1000 1 1 k).x1) = 10 := by
      field_simp
      ring
    have h := cube_step_le _ _ hx hd
    push_cast
    linarith

theorem cap_example_x1_le (k : Nat) (hk : k ≤ 1000) : (iterate (1 : ℚ) 1 1 1000 1 1 k).x1 ≤ 44 := by
  have h := cap_example_x1_cube k
  have hk' : (k : ℚ) ≤ 1000 := by exact_mod_cast hk
  by_contra hgt
  have hlt : (44 : ℚ) < (iterate (1 : ℚ) 1 1 1000 1 1 k).x1 := not_le.mp hgt
  have : (44 : ℚ) ^ 3 < (iterate (1 : ℚ) 1 1 1000 1 1 k).x1 ^ 3 := pow_lt_pow_left₀ hlt (by norm_num) (by norm_num)
  norm_num at this
  linarith

theorem recip_drop (x y d : ℚ) (hx : 2 ≤ x) (hd : d * (x * x) = 10) (hy : y = x + d)
    (hc : x ^ 3 ≤ 84027) (h44 : y ≤ 44) :
    1 / 1000 ≤ 1000 / x - 1000 / y := by
  have hx0 : 0 < x := by linarith
  have hd0 : 0 < d := by
    by_contra hneg
    have hle : d ≤ 0 := not_lt.mp hneg
    have : d * (x * x) ≤ 0 := mul_nonpos_of_nonpos_of_nonneg hle (by positivity)
    linarith
  have hy0 : 0 < y := by linarith
  have hprod : x ^ 3 * y ≤ 84027 * 44 := mul_le_mul hc h44 hy0.le (by norm_num)
  have hxy : x * y ≤ 1000000 * d := by
    have hmul : (x * y) * (x * x) ≤ (1000000 * d) * (x * x) := by
      have e1 : (x * y) * (x * x) = x ^ 3 * y := by ring
      have e2 : (1000000 * d) * (x * x) = 1000000 * (d * (x * x)) := by ring
      rw [e1, e2, hd]
      linarith
    exact le_of_mul_le_mul_right hmul (by positivity)
  have e : 1000 / x - 1000 / y = 1000 * d / (x * y) := by
    rw [div_sub_div _ _ hx0.ne' hy0.ne', hy]
    congr 1
    ring
  rw [e, le_div_iff₀ (mul_pos hx0 hy0)]
  linarith

theorem cap_example_decrease (k : Nat) (hk : k < 1000) :
    1 / 1000 ≤ latency_of 1000 1 1 (iterate (1 : ℚ) 1 1 1000 1 1 k)
      - latency_of 1000 1 1 (iterate (1 : ℚ) 1 1 1000 1 1 (k + 1)) := by
  have hf := feasible_iterate (1 : ℚ) 1 1 1000 1 1 (by norm_num) (by norm_num) (by norm_num)
    (by norm_num) (by norm_num) (by norm_num) k
  obtain ⟨_, k2, k3⟩ := iterate_step (1 : ℚ) 1 1 1000 1 1 (by norm_num) (by norm_num)
    (by norm_num) (by norm_num) (by norm_num) (by norm_num) k
  obtain ⟨_, _, h3, _, h5, _⟩ := hf
  have hx := cap_example_x1_ge k
  have hx0 : (iterate (1 : ℚ) 1 1 1000 1 1 k).x1 ≠ 0 := by linarith
  have hd : 1 / 100 * (1000 / ((iterate (1 : ℚ) 1 1 1000 1 1 k).x1 * (iterate (1 : ℚ) 1 1 1000 1 1 k).x1))
      * ((iterate (1 : ℚ) 1 1 1000 1 1 k).x1 * (iterate (1 : ℚ) 1 1 1000 1 1 k).x1) = 10 := by
    field_simp
    ring
  have hcube : (iterate (1 : ℚ) 1 1 1000 1 1 k).x1 ^ 3 ≤ 84027 := by
    have h := cap_example_x1_cube k
    have hk' : (k : ℚ) ≤ 1000 := by exact_mod_cast hk.le
    linarith
  have hdrop := recip_drop _ _ _ hx hd (cap_example_x1_succ k) hcube
    (cap_example_x1_le (k + 1) (by omega))
  have e2 := div_le_div_of_nonneg_left (by norm_num : (0 : ℚ) ≤ 1) h3 k2
  have e3 := div_le_div_of_nonneg_left (by norm_num : (0 : ℚ) ≤ 1) h5 k3
  simp only [latency_of, objective]
  linarith

theorem cap_example_not_converged (k : Nat) (hk : k < 1000) :
    converged (.fin (latency_of 1000 1 1 (iterate (1 : ℚ) 1 1 1000 1 1 k)))
      (latency_of 1000 1 1 (iterate (1 : ℚ) 1 1 1000 1 1 (k + 1))) = false := by
  have h := cap_example_decrease k hk
  rw [Bool.eq_false_iff]
  intro hc
  rw [converged_fin] at hc
  have := le_abs_self (latency_of 1000 1 1 (iterate (1 : ℚ) 1 1 1000 1 1 k)
      - latency_of 1000 1 1 (iterate (1 : ℚ) 1 1 1000 1 1 (k + 1)))
  linarith

theorem solve_lagrange_of_run (r_min p_max b_max a b c : K) (s : Vars K) (n : Nat)
    (h : solve_run r_min p_max b_max a b c = (s, n)) :
    solve_lagrange r_min p_max b_max a b c
        = ⟨s.x1, s.x2, s.x3, objective s.x1 s.x2 s.x3 a b c⟩ ∧
      solve_iterations r_min p_max b_max a b c = n := by
  unfold solve_lagrange solve_iterations
  rw [h]
  exact ⟨rfl, rfl⟩

theorem cap_example_run :
    solve_run (1 : ℚ) 1 1 1000 1 1 = (iterate (1 : ℚ) 1 1 1000 1 1 1000, 1000) := by
  obtain ⟨n, h2, h1000, hrun, hlast, _⟩ := solve_run_spec (1 : ℚ) 1 1 1000 1 1
  have hn : n = 1000 := by
    rcases hlast with h | h
    · exact h
    · exfalso
      have hnc := cap_example_not_converged (n - 1) (by omega)
      have e : n - 1 + 1 = n := by omega
      rw [e] at hnc
      have hc := (converged_fin _ _).mpr h
      rw [hnc] at hc
      exact Bool.false_ne_true hc
  rw [hrun, hn]

theorem round_half_even_of_near (x : ℚ) (m : ℤ) (h1 : (m : ℚ) - 1 / 2 < x)
    (h2 : x < (m : ℚ) + 1 / 2) : round_half_even x = m := by
  unfold round_half_even
  by_cases hx : (m : ℚ) ≤ x
  · have hf : ⌊x⌋ = m := Int.floor_eq_iff.mpr ⟨hx, by linarith⟩
    rw [hf, if_pos (by linarith)]
  · have hx' : x < (m : ℚ) := not_le.mp hx
    have hf : ⌊x⌋ = m - 1 := by
      apply Int.floor_eq_iff.mpr
      push_cast
      exact ⟨by linarith, by linarith⟩
    rw [hf]
    push_cast
    rw [if_neg (by linarith), if_pos (by linarith)]
    ring

theorem round_half_even_tie (x : ℚ) (m : ℤ) (hx : x = (m : ℚ) + 1 / 2) (hm : m % 2 = 0) :
    round_half_even x = m := by
  unfold round_half_even
  have hf : ⌊x⌋ = m := Int.floor_eq_iff.mpr ⟨by linarith, by linarith⟩
  rw [hf, if_neg (by linarith), if_neg (by linarith), if_pos hm]

theorem round_double_cert (q : ℚ) (l e m : ℤ) (h1 : (2 : ℚ) ^ l ≤ |q|)
    (h2 : |q| < (2 : ℚ) ^ (l + 1)) (he : e = max l (-1022) - 52)
    (hm : round_half_even (q / 2 ^ e) = m)
    (hfin : |(m : ℚ) * 2 ^ e| < (2 : ℚ) ^ (1024 : ℤ)) :
    round_double q = .fin ((m : ℚ) * 2 ^ e) := by
  have hq : 0 < |q| := lt_of_lt_of_le (by positivity) h1
  have hlog : Int.log 2 |q| = l := by
    apply le_antisymm
    · have h := (Int.lt_zpow_iff_log_lt (by norm_num : 1 < 2) hq).mp
        (by rw [Nat.cast_ofNat]; exact h2)
      omega
    · exact (Int.zpow_le_iff_le_log (by norm_num : 1 < 2) hq).mp
        (by rw [Nat.cast_ofNat]; exact h1)
  unfold round_double
  simp only [hlog, ← he, hm]
  rw [if_neg (not_le.mpr hfin)]

theorem round_double_zero : round_double 0 = .fin 0 := by
  unfold round_double
  simp [round_half_even]
  positivity

theorem round_double_cert_pos (q : ℚ) (l e m : ℤ) (h1 : (2 : ℚ) ^ l ≤ q)
    (h2 : q < (2 : ℚ) ^ (l + 1)) (he : e = max l (-1022) - 52)
    (hm : round_half_even (q / 2 ^ e) = m) (hm0 : 0 ≤ m)
    (hfin : (m : ℚ) * 2 ^ e < (2 : ℚ) ^ (1024 : ℤ)) :
    round_double q = .fin ((m : ℚ) * 2 ^ e) := by
  have hq : 0 < q := lt_of_lt_of_le (by positivity) h1
  have hm0' : (0 : ℚ) ≤ m := by exact_mod_cast hm0
  refine round_double_cert q l e m ?_ ?_ he hm ?_
  · rw [abs_of_pos hq]
    exact h1
  · rw [abs_of_pos hq]
    exact h2
  · rw [abs_of_nonneg (mul_nonneg hm0' (by positivity))]
    exact hfin

theorem round_double_cert_neg (q : ℚ) (l e m : ℤ) (h1 : (2 : ℚ) ^ l ≤ -q)
    (h2 : -q < (2 : ℚ) ^ (l + 1)) (he : e = max l (-1022) - 52)
    (hm : round_half_even (q / 2 ^ e) = m) (hm0 : m ≤ 0)
    (hfin : -((m : ℚ) * 2 ^ e) < (2 : ℚ) ^ (1024 : ℤ)) :
    round_double q = .fin ((m : ℚ) * 2 ^ e) := by
  have hq : q < 0 := by
    have : 0 < -q := lt_of_lt_of_le (by positivity) h1
    linarith
  have hm0' : (m : ℚ) ≤ 0 := by exact_mod_cast hm0
  refine round_double_cert q l e m ?_ ?_ he hm ?_
  · rw [abs_of_neg hq]
    exact h1
  · rw [abs_of_neg hq]
    exact h2
  · rw [abs_of_nonpos (mul_nonpos_of_nonpos_of_nonneg hm0' (by positivity))]
    exact hfin

theorem fp_add_fin (x y : ℚ) : fp_add (.fin x) (.fin y) = round_double (x + y) := rfl

theorem fp_sub_fin (x y : ℚ) : fp_sub (.fin x) (.fin y) = round_double (x - y) := rfl

theorem fp_mul_fin (x y : ℚ) : fp_mul (.fin x) (.fin y) = round_double (x * y) := rfl

theorem fp_div_fin (x y : ℚ) (hy : y ≠ 0) :
    fp_div (.fin x) (.fin y) = round_double (x / y) := by
  simp [fp_div, Dbl.div, Dbl.rounded, hy]

theorem round_double_one_tenth :
    round_double (1 / 10) = .fin (3602879701896397 / 36028797018963968) :=
  (round_double_cert_pos (1 / 10) (-4) (-56) (7205759403792794) (by norm_num) (by norm_num)
    (by decide) (round_half_even_of_near _ _ (by norm_num) (by norm_num))
    (by norm_num) (by norm_num)).trans (by norm_num)

theorem round_double_eight_tenths :
    round_double (8 / 10) = .fin (3602879701896397 / 4503599627370496) :=
  (round_double_cert_pos (8 / 10) (-1) (-53) (7205759403792794) (by norm_num) (by norm_num)
    (by decide) (round_half_even_of_near _ _ (by norm_num) (by norm_num))
    (by norm_num) (by norm_num)).trans (by norm_num)

theorem round_double_one_hundredth :
    round_double (1 / 100) = .fin (5764607523034235 / 576460752303423488) :=
  (round_double_cert_pos (1 / 100) (-7) (-59) (5764607523034235) (by norm_num) (by norm_num)
    (by decide) (round_half_even_of_near _ _ (by norm_num) (by norm_num))
    (by norm_num) (by norm_num)).trans (by norm_num)

theorem round_double_ten : round_double (1 * 10) = .fin 10 :=
  (round_double_cert_pos (1 * 10) (3) (-49) (5629499534213120) (by norm_num) (by norm_num)
    (by decide) (round_half_even_of_near _ _ (by norm_num) (by norm_num))
    (by norm_num) (by norm_num)).trans (by norm_num)

theorem round_double_tenth_times_ten :
    round_double (3602879701896397 / 36028797018963968 * 10) = .fin 1 :=
  (round_double_cert_pos (3602879701896397 / 36028797018963968 * 10) (0) (-52) (4503599627370496) (by norm_num) (by norm_num)
    (by decide) (round_half_even_of_near _ _ (by norm_num) (by norm_num))
    (by norm_num) (by norm_num)).trans (by norm_num)

theorem round_double_tiny : round_double ((2 : ℚ) ^ (-600 : ℤ)) = .fin ((2 : ℚ) ^ (-600 : ℤ)) :=
  (round_double_cert_pos ((2 : ℚ) ^ (-600 : ℤ)) (-600) (-652) (4503599627370496) (by norm_num) (by norm_num)
    (by decide) (round_half_even_of_near _ _ (by norm_num) (by norm_num))
    (by norm_num) (by norm_num)).trans (by norm_num)

theorem underflow_seed_x2 :
    round_double ((2 : ℚ) ^ (-600 : ℤ) * (3602879701896397 / 4503599627370496)) = .fin (7205759403792794 * (2 : ℚ) ^ (-653 : ℤ)) :=
  (round_double_cert_pos ((2 : ℚ) ^ (-600 : ℤ) * (3602879701896397 / 4503599627370496)) (-601) (-653) (7205759403792794) (by norm_num) (by norm_num)
    (by decide) (round_half_even_of_near _ _ (by norm_num) (by norm_num))
    (by norm_num) (by norm_num)).trans (by norm_num)

theorem underflow_square :
    round_double (7205759403792794 * (2 : ℚ) ^ (-653 : ℤ) * (7205759403792794 * (2 : ℚ) ^ (-653 : ℤ))) = .fin 0 :=
  (round_double_cert_pos (7205759403792794 * (2 : ℚ) ^ (-653 : ℤ) * (7205759403792794 * (2 : ℚ) ^ (-653 : ℤ))) (-1201) (-1074) (0) (by norm_num) (by norm_num)
    (by decide) (round_half_even_of_near _ _ (by norm_num) (by norm_num))
    (by norm_num) (by norm_num)).trans (by norm_num)

theorem round_double_big : round_double 9007199254740992 = .fin 9007199254740992 :=
  (round_double_cert_pos (9007199254740992) (53) (1) (4503599627370496) (by norm_num) (by norm_num)
    (by decide) (round_half_even_of_near _ _ (by norm_num) (by norm_num))
    (by norm_num) (by norm_num)).trans (by norm_num)

theorem round_double_big_times_ten :
    round_double (9007199254740992 * 10) = .fin 90071992547409920 :=
  (round_double_cert_pos (9007199254740992 * 10) (56) (4) (5629499534213120) (by norm_num) (by norm_num)
    (by decide) (round_half_even_of_near _ _ (by norm_num) (by norm_num))
    (by norm_num) (by norm_num)).trans (by norm_num)

theorem absorbed_seed_x1 : round_double (9007199254740992 + 1) = .fin 9007199254740992 :=
  (round_double_cert_pos (9007199254740992 + 1) (53) (1) (4503599627370496) (by norm_num) (by norm_num)
    (by decide) (round_half_even_tie _ _ (by norm_num) (by decide))
    (by norm_num) (by norm_num)).trans (by norm_num)

theorem absorbed_square :
    round_double (9007199254740992 * 9007199254740992) = .fin 81129638414606681695789005144064 :=
  (round_double_cert_pos (9007199254740992 * 9007199254740992) (106) (54) (4503599627370496) (by norm_num) (by norm_num)
    (by decide) (round_half_even_of_near _ _ (by norm_num) (by norm_num))
    (by norm_num) (by norm_num)).trans (by norm_num)

theorem absorbed_gradient :
    round_double (-1 / 81129638414606681695789005144064)
      = .fin (-(1 / 81129638414606681695789005144064)) :=
  (round_double_cert_neg (-1 / 81129638414606681695789005144064) (-106) (-158) (-4503599627370496) (by norm_num) (by norm_num)
    (by decide) (round_half_even_of_near _ _ (by norm_num) (by norm_num))
    (by norm_num) (by norm_num)).trans (by norm_num)

theorem absorbed_gradient_plus_zero :
    round_double (-(1 / 81129638414606681695789005144064) + 0) = .fin (-(1 / 81129638414606681695789005144064)) :=
  (round_double_cert_neg (-(1 / 81129638414606681695789005144064) + 0) (-106) (-158) (-4503599627370496) (by norm_num) (by norm_num)
    (by decide) (round_half_even_of_near _ _ (by norm_num) (by norm_num))
    (by norm_num) (by norm_num)).trans (by norm_num)

theorem absorbed_step :
    round_double (5764607523034235 / 576460752303423488 * (-(1 / 81129638414606681695789005144064)))
      = .fin (-(5764607523034235 * (2 : ℚ) ^ (-165 : ℤ))) :=
  (round_double_cert_neg (5764607523034235 / 576460752303423488 * (-(1 / 81129638414606681695789005144064))) (-113) (-165) (-5764607523034235) (by norm_num) (by norm_num)
    (by decide) (round_half_even_of_near _ _ (by norm_num) (by norm_num))
    (by norm_num) (by norm_num)).trans (by norm_num)

theorem absorbed_update :
    round_double (9007199254740992 - -(5764607523034235 * (2 : ℚ) ^ (-165 : ℤ))) = .fin 9007199254740992 :=
  (round_double_cert_pos (9007199254740992 - -(5764607523034235 * (2 : ℚ) ^ (-165 : ℤ))) (53) (1) (4503599627370496) (by norm_num) (by norm_num)
    (by decide) (round_half_even_of_near _ _ (by norm_num) (by norm_num))
    (by norm_num) (by norm_num)).trans (by norm_num)

theorem loop_body_fp_x1_fixed (p_max b_max b c : Dbl ℚ) (s : Vars (Dbl ℚ))
    (hs : s.x1 = .fin 9007199254740992) :
    (loop_body_fp (.fin 9007199254740992) p_max b_max (.fin 1) b c s).x1 = .fin 9007199254740992 := by
  have hg1 : fp_sub (Dbl.fin 9007199254740992) (Dbl.fin 9007199254740992) = .fin 0 := by
    rw [fp_sub_fin, sub_self, round_double_zero]
  have hlt : Dbl.lt (Dbl.fin (0 : ℚ)) (Dbl.fin 0) = false := by
    simp [Dbl.lt]
  have hgrad : fp_div (Dbl.neg (Dbl.fin 1)) (fp_mul (Dbl.fin 9007199254740992) (Dbl.fin 9007199254740992))
      = .fin (-(1 / 81129638414606681695789005144064)) := by
    rw [fp_mul_fin, absorbed_square]
    show fp_div (Dbl.fin (-1)) _ = _
    rw [fp_div_fin _ _ (by norm_num), absorbed_gradient]
  have hmax : fp_max (Dbl.fin 9007199254740992) (Dbl.fin 9007199254740992) = .fin 9007199254740992 := by
    simp [fp_max, Dbl.lt]
  simp only [loop_body_fp, gradient_fp, gradient_divisors_fp, hs, hg1, hlt, if_false,
    Bool.false_eq_true]
  rw [hgrad]
  simp only [STEP_SIZE_fp, round_double_one_hundredth, fp_add_fin, fp_mul_fin, fp_sub_fin,
    absorbed_gradient_plus_zero, absorbed_step, absorbed_update, hmax]

theorem init_vars_fp_x1_absorbed :
    (init_vars_fp (.fin 9007199254740992) (.fin 1) (.fin 9007199254740992)).x1 = .fin 9007199254740992 := by
  simp only [init_vars_fp, fp_add_fin, absorbed_seed_x1]

theorem iterate_fp_x1_fixed (k : Nat) :
    ((loop_body_fp (.fin 9007199254740992) (.fin 1) (.fin 9007199254740992) (.fin 1) (.fin 1) (.fin 1))^[k]
      (init_vars_fp (.fin 9007199254740992) (.fin 1) (.fin 9007199254740992))).x1 = .fin 9007199254740992 := by
  induction k with
  | zero => exact init_vars_fp_x1_absorbed
  | succ k ih =>
    rw [Function.iterate_succ_apply']
    exact loop_body_fp_x1_fixed _ _ _ _ _ ih

theorem round_double_two_hundred : round_double (20 * 10) = .fin 200 :=
  (round_double_cert_pos (20 * 10) (7) (-45) (7036874417766400) (by norm_num) (by norm_num)
    (by decide) (round_half_even_of_near _ _ (by norm_num) (by norm_num))
    (by norm_num) (by norm_num)).trans (by norm_num)

theorem solve_loop_fp_is_iterate (r_min p_max b_max a b c : Dbl ℚ) :
    ∀ (fuel : Nat) (prev : Dbl ℚ) (s : Vars (Dbl ℚ)),
      ∃ m, solve_loop_fp r_min p_max b_max a b c fuel prev s
        = (loop_body_fp r_min p_max b_max a b c)^[m] s := by
  intro fuel
  induction fuel with
  | zero =>
    intro prev s
    exact ⟨0, rfl⟩
  | succ fuel ih =>
    intro prev s
    simp only [solve_loop_fp]
    split_ifs
    · exact ⟨1, rfl⟩
    · obtain ⟨m, hm⟩ := ih
        (objective_fp (loop_body_fp r_min p_max b_max a b c s).x1
          (loop_body_fp r_min p_max b_max a b c s).x2
          (loop_body_fp r_min p_max b_max a b c s).x3 a b c)
        (loop_body_fp r_min p_max b_max a b c s)
      exact ⟨m + 1, by rw [hm, Function.iterate_succ_apply]⟩

theorem validate_inputs_fp_zero_or_one (x1 x2 x3 x4 x5 x6 : Dbl ℚ) :
    validate_inputs_fp x1 x2 x3 x4 x5 x6 = 1 ∨ validate_inputs_fp x1 x2 x3 x4 x5 x6 = 0 := by
  unfold validate_inputs_fp
  split_ifs <;> simp

theorem validate_inputs_fp_fin_iff (r_min p_max b_max a b c : ℚ) :
    validate_inputs_fp (.fin r_min) (.fin p_max) (.fin b_max) (.fin a) (.fin b) (.fin c) = 1
      ↔ 0 < r_min ∧ 0 < p_max ∧ 0 < b_max ∧ 0 < a ∧ 0 < b ∧ 0 < c ∧
        Dbl.ge (.fin r_min) (fp_mul (.fin b_max) (.fin 10)) = false := by
  simp only [validate_inputs_fp, Dbl.le, Bool.or_eq_true, decide_eq_true_eq]
  constructor
  · intro h
    split_ifs at h with h1 h2 h3
    · simp at h
    · simp at h
    · simp at h
    · push_neg at h1 h2
      exact ⟨h1.1.1, h1.1.2, h1.2, h2.1.1, h2.1.2, h2.2, by simpa using h3⟩
  · rintro ⟨h1, h2, h3, h4, h5, h6, h7⟩
    rw [if_neg, if_neg, if_neg]
    · simp [h7]
    · push_neg; exact ⟨⟨h4, h5⟩, h6⟩
    · push_neg; exact ⟨⟨h1, h2⟩, h3⟩

end Lemmas

section Claims

variable {K : Type} [LinearOrderedField K]

/-- C1: for every input accepted by `validate_inputs`, the point returned by
`solve_lagrange` is feasible with tolerance 0: `rate ≥ r_min`,
`power ≤ p_max` and `bandwidth ≤ b_max`. -/
theorem solve_lagrange_feasible (r_min p_max b_max a b c : K)
    (hv : validate_inputs (.fin r_min) (.fin p_max) (.fin b_max)
      (.fin a) (.fin b) (.fin c) = 1) :
    r_min ≤ (solve_lagrange r_min p_max b_max a b c).rate ∧
      (solve_lagrange r_min p_max b_max a b c).power ≤ p_max ∧
      (solve_lagrange r_min p_max b_max a b c).bandwidth ≤ b_max := by
  obtain ⟨hr, hp, hb, ha, hb', hc, _⟩ := (validate_inputs_fin_iff _ _ _ _ _ _).mp hv
  obtain ⟨n, _, _, hrun, _, _⟩ := solve_run_spec r_min p_max b_max a b c
  obtain ⟨h1, _, _, h4, _, h6⟩ := feasible_iterate r_min p_max b_max a b c hr hp hb ha hb' hc n
  simp only [solve_lagrange, hrun]
  exact ⟨h1, h4, h6⟩

/-- Witness for C1 on the usage example of `main`. -/
theorem solve_lagrange_feasible_witness :
    validate_inputs (.fin (5 : ℚ)) (.fin (5 / 2)) (.fin 20)
        (.fin (6 / 5)) (.fin (4 / 5)) (.fin (1 / 2)) = 1 ∧
      (5 : ℚ) ≤ (solve_lagrange (5 : ℚ) (5 / 2) 20 (6 / 5) (4 / 5) (1 / 2)).rate ∧
      (solve_lagrange (5 : ℚ) (5 / 2) 20 (6 / 5) (4 / 5) (1 / 2)).power ≤ 5 / 2 ∧
      (solve_lagrange (5 : ℚ) (5 / 2) 20 (6 / 5) (4 / 5) (1 / 2)).bandwidth ≤ 20 :=
  ⟨by norm_num [validate_inputs, Dbl.le, Dbl.ge, Dbl.mul],
    solve_lagrange_feasible 5 (5 / 2) 20 (6 / 5) (4 / 5) (1 / 2)
      (by norm_num [validate_inputs, Dbl.le, Dbl.ge, Dbl.mul])⟩

/-- Exact-product reading of `validate_inputs`: on finite parameters, with
`b_max * 10` taken without rounding, it returns 1 exactly when all six are
strictly positive and `r_min < 10 * b_max`, and returns 0 otherwise. -/
theorem validate_inputs_accepts_iff (r_min p_max b_max a b c : K) :
    (validate_inputs (.fin r_min) (.fin p_max) (.fin b_max) (.fin a) (.fin b) (.fin c) = 1
      ↔ 0 < r_min ∧ 0 < p_max ∧ 0 < b_max ∧ 0 < a ∧ 0 < b ∧ 0 < c ∧ r_min < 10 * b_max) ∧
    (validate_inputs (.fin r_min) (.fin p_max) (.fin b_max) (.fin a) (.fin b) (.fin c) = 1 ∨
      validate_inputs (.fin r_min) (.fin p_max) (.fin b_max) (.fin a) (.fin b) (.fin c) = 0) ∧
    (r_min ≤ 0 ∨ p_max ≤ 0 ∨ b_max ≤ 0 ∨ a ≤ 0 ∨ b ≤ 0 ∨ c ≤ 0 →
      validate_inputs (.fin r_min) (.fin p_max) (.fin b_max) (.fin a) (.fin b) (.fin c) = 0) ∧
    (r_min = 10 * b_max →
      validate_inputs (.fin r_min) (.fin p_max) (.fin b_max) (.fin a) (.fin b) (.fin c) = 0) ∧
    validate_inputs (.fin (50 : K)) (.fin 1) (.fin 1) (.fin a) (.fin b) (.fin c) = 0 ∧
    (0 < r_min → 0 < p_max → 0 < b_max → 0 < a → 0 < b → 0 < c → r_min < 10 * b_max →
      validate_inputs (.fin r_min) (.fin p_max) (.fin b_max) (.fin a) (.fin b) (.fin c) = 1) := by
  have hiff := validate_inputs_fin_iff r_min p_max b_max a b c
  have hiff50 := validate_inputs_fin_iff (50 : K) 1 1 a b c
  have h01 : ∀ x1 x2 x3 x4 x5 x6 : Dbl K,
      validate_inputs x1 x2 x3 x4 x5 x6 = 1 ∨ validate_inputs x1 x2 x3 x4 x5 x6 = 0 := by
    intro x1 x2 x3 x4 x5 x6
    unfold validate_inputs
    split_ifs <;> simp
  rw [mul_comm b_max 10] at hiff
  refine ⟨hiff, h01 _ _ _ _ _ _, ?_, ?_, ?_, ?_⟩
  · intro h
    rcases h01 (.fin r_min) (.fin p_max) (.fin b_max) (.fin a) (.fin b) (.fin c) with h1 | h0
    · obtain ⟨hr, hp, hb, ha, hb', hc, _⟩ := hiff.mp h1
      rcases h with h | h | h | h | h | h <;> linarith
    · exact h0
  · intro h
    rcases h01 (.fin r_min) (.fin p_max) (.fin b_max) (.fin a) (.fin b) (.fin c) with h1 | h0
    · obtain ⟨_, _, _, _, _, _, hlt⟩ := hiff.mp h1
      linarith
    · exact h0
  · rcases h01 (.fin (50 : K)) (.fin 1) (.fin 1) (.fin a) (.fin b) (.fin c) with h1 | h0
    · obtain ⟨_, _, _, _, _, _, hlt⟩ := hiff50.mp h1
      norm_num at hlt
    · exact h0
  · intro hr hp hb ha hb' hc hlt
    exact hiff.mpr ⟨hr, hp, hb, ha, hb', hc, hlt⟩

/-- The exact-product reading on the usage example of `main`: the six
parameters are positive with `r_min < 10 * b_max`, and the input is accepted. -/
theorem validate_inputs_accepts_iff_witness :
    ((0 : ℚ) < 5 ∧ (0 : ℚ) < 5 / 2 ∧ (0 : ℚ) < 20 ∧ (0 : ℚ) < 6 / 5 ∧ (0 : ℚ) < 4 / 5 ∧
        (0 : ℚ) < 1 / 2 ∧ (5 : ℚ) < 10 * 20) ∧
      validate_inputs (.fin (5 : ℚ)) (.fin (5 / 2)) (.fin 20)
        (.fin (6 / 5)) (.fin (4 / 5)) (.fin (1 / 2)) = 1 :=
  ⟨by norm_num,
    (validate_inputs_accepts_iff (5 : ℚ) (5 / 2) 20 (6 / 5) (4 / 5) (1 / 2)).1.mpr (by norm_num)⟩

/-- C2 fails on the code in two ways.  A NaN `r_min` is accepted although NaN
is not strictly positive.  And `r_min = 1.0`, `b_max = 0.1` (the double nearest
to 0.1, which is a little above one tenth) is rejected although all six
parameters are positive and `r_min < 10 * b_max`, because the double product
`b_max * 10` rounds down to `1.0`. -/
theorem validate_inputs_iff_fails :
    (Dbl.lt (.fin 0) (Dbl.nan : Dbl ℚ) = false ∧
      validate_inputs_fp Dbl.nan (.fin 1) (.fin 1) (.fin 1) (.fin 1) (.fin 1) = 1) ∧
    (round_double (1 / 10) = .fin (3602879701896397 / 36028797018963968) ∧
      (0 : ℚ) < 3602879701896397 / 36028797018963968 ∧
      (1 : ℚ) < 10 * (3602879701896397 / 36028797018963968) ∧
      validate_inputs_fp (.fin 1) (.fin 1) (.fin (3602879701896397 / 36028797018963968))
        (.fin 1) (.fin 1) (.fin 1) = 0) := by
  have hten : fp_mul (Dbl.fin 1) (Dbl.fin 10) = .fin 10 := by
    rw [fp_mul_fin, round_double_ten]
  have hone : fp_mul (Dbl.fin (3602879701896397 / 36028797018963968)) (Dbl.fin 10) = .fin 1 := by
    rw [fp_mul_fin, round_double_tenth_times_ten]
  refine ⟨⟨rfl, ?_⟩, round_double_one_tenth, by norm_num, by norm_num, ?_⟩
  · simp only [validate_inputs_fp, hten]
    norm_num [Dbl.le, Dbl.ge]
  · simp only [validate_inputs_fp, hone]
    norm_num [Dbl.le, Dbl.ge]

/-- C2 as amended: on finite parameters `validate_inputs` returns 1 exactly
when all six are strictly positive and the test `r_min >= b_max * 10` fails
on the rounded double product, and returns 0 otherwise.  So a parameter that
is zero or negative is rejected, a representable `r_min` equal to
`10 * b_max` is rejected, `r_min = 50, p_max = 1, b_max = 1` is rejected, and
an `r_min` strictly below `10 * b_max` is accepted when all six are positive
and the product `b_max * 10` is representable. -/
theorem validate_inputs_fp_accepts_iff (r_min p_max b_max a b c : ℚ) :
    (validate_inputs_fp (.fin r_min) (.fin p_max) (.fin b_max) (.fin a) (.fin b) (.fin c) = 1
      ↔ 0 < r_min ∧ 0 < p_max ∧ 0 < b_max ∧ 0 < a ∧ 0 < b ∧ 0 < c ∧
        Dbl.ge (.fin r_min) (fp_mul (.fin b_max) (.fin 10)) = false) ∧
    (validate_inputs_fp (.fin r_min) (.fin p_max) (.fin b_max) (.fin a) (.fin b) (.fin c) = 1 ∨
      validate_inputs_fp (.fin r_min) (.fin p_max) (.fin b_max) (.fin a) (.fin b) (.fin c)
        = 0) ∧
    (r_min ≤ 0 ∨ p_max ≤ 0 ∨ b_max ≤ 0 ∨ a ≤ 0 ∨ b ≤ 0 ∨ c ≤ 0 →
      validate_inputs_fp (.fin r_min) (.fin p_max) (.fin b_max) (.fin a) (.fin b) (.fin c)
        = 0) ∧
    (r_min = 10 * b_max → round_double r_min = .fin r_min →
      validate_inputs_fp (.fin r_min) (.fin p_max) (.fin b_max) (.fin a) (.fin b) (.fin c)
        = 0) ∧
    validate_inputs_fp (.fin 50) (.fin 1) (.fin 1) (.fin a) (.fin b) (.fin c) = 0 ∧
    (0 < r_min → 0 < p_max → 0 < b_max → 0 < a → 0 < b → 0 < c → r_min < 10 * b_max →
      round_double (b_max * 10) = .fin (b_max * 10) →
      validate_inputs_fp (.fin r_min) (.fin p_max) (.fin b_max) (.fin a) (.fin b) (.fin c)
        = 1) := by
  have hiff := validate_inputs_fp_fin_iff r_min p_max b_max a b c
  have h01 := validate_inputs_fp_zero_or_one (.fin r_min) (.fin p_max) (.fin b_max)
    (.fin a) (.fin b) (.fin c)
  refine ⟨hiff, h01, ?_, ?_, ?_, ?_⟩
  · intro h
    rcases h01 with h1 | h0
    · obtain ⟨hr, hp, hb, ha, hb', hc, _⟩ := hiff.mp h1
      rcases h with h | h | h | h | h | h <;> linarith
    · exact h0
  · intro heq hrep
    rcases h01 with h1 | h0
    · obtain ⟨_, _, _, _, _, _, hge⟩ := hiff.mp h1
      have hprod : fp_mul (Dbl.fin b_max) (Dbl.fin 10) = .fin r_min := by
        rw [fp_mul_fin, mul_comm, ← heq, hrep]
      rw [hprod] at hge
      simp [Dbl.ge, Dbl.le] at hge
    · exact h0
  · rcases validate_inputs_fp_zero_or_one (.fin 50) (.fin 1) (.fin 1)
        (.fin a) (.fin b) (.fin c) with h1 | h0
    · obtain ⟨_, _, _, _, _, _, hge⟩ := (validate_inputs_fp_fin_iff 50 1 1 a b c).mp h1
      rw [fp_mul_fin, round_double_ten] at hge
      norm_num [Dbl.ge, Dbl.le] at hge
    · exact h0
  · intro hr hp hb ha hb' hc hlt hrep
    refine hiff.mpr ⟨hr, hp, hb, ha, hb', hc, ?_⟩
    rw [fp_mul_fin, hrep]
    simp only [Dbl.ge, Dbl.le, decide_eq_false_iff_not, not_le]
    linarith

/-- Witness for the amended C2 on the usage example of `main`: the six
parameters are positive, the double product `20.0 * 10` is `200.0`, the test
`5.0 >= 200.0` fails, and the input is accepted. -/
theorem validate_inputs_fp_accepts_iff_witness :
    ((0 : ℚ) < 5 ∧ (0 : ℚ) < 5 / 2 ∧ (0 : ℚ) < 20 ∧ (0 : ℚ) < 6 / 5 ∧ (0 : ℚ) < 4 / 5 ∧
        (0 : ℚ) < 1 / 2 ∧ Dbl.ge (.fin (5 : ℚ)) (fp_mul (.fin 20) (.fin 10)) = false) ∧
      validate_inputs_fp (.fin 5) (.fin (5 / 2)) (.fin 20)
        (.fin (6 / 5)) (.fin (4 / 5)) (.fin (1 / 2)) = 1 :=
  have hge : Dbl.ge (.fin (5 : ℚ)) (fp_mul (.fin 20) (.fin 10)) = false := by
    rw [fp_mul_fin, round_double_two_hundred]
    norm_num [Dbl.ge, Dbl.le]
  ⟨⟨by norm_num, by norm_num, by norm_num, by norm_num, by norm_num, by norm_num, hge⟩,
    (validate_inputs_fp_accepts_iff 5 (5 / 2) 20 (6 / 5) (4 / 5) (1 / 2)).1.mpr
      ⟨by norm_num, by norm_num, by norm_num, by norm_num, by norm_num, by norm_num, hge⟩⟩

/-- C3: termination rule.  For every accepted input the solver runs `n`
iterations with `2 ≤ n ≤ 1000` and returns the `n`-th committed iterate, where
the convergence test `|objective(x^(k-1)) - objective(x^(k))| < 0.001` fails
for every `k` with `2 ≤ k < n`, and either succeeds at `k = n` or `n = 1000`. -/
theorem solve_lagrange_termination (r_min p_max b_max a b c : K)
    (_hv : validate_inputs (.fin r_min) (.fin p_max) (.fin b_max)
      (.fin a) (.fin b) (.fin c) = 1) :
    2 ≤ solve_iterations r_min p_max b_max a b c ∧
    solve_iterations r_min p_max b_max a b c ≤ 1000 ∧
    (solve_lagrange r_min p_max b_max a b c).rate
      = (iterate r_min p_max b_max a b c (solve_iterations r_min p_max b_max a b c)).x1 ∧
    (solve_lagrange r_min p_max b_max a b c).power
      = (iterate r_min p_max b_max a b c (solve_iterations r_min p_max b_max a b c)).x2 ∧
    (solve_lagrange r_min p_max b_max a b c).bandwidth
      = (iterate r_min p_max b_max a b c (solve_iterations r_min p_max b_max a b c)).x3 ∧
    (solve_iterations r_min p_max b_max a b c = 1000 ∨
      |latency_of a b c
          (iterate r_min p_max b_max a b c (solve_iterations r_min p_max b_max a b c - 1))
        - latency_of a b c
          (iterate r_min p_max b_max a b c (solve_iterations r_min p_max b_max a b c))|
        < 1 / 1000) ∧
    ∀ k, 2 ≤ k → k < solve_iterations r_min p_max b_max a b c →
      ¬ |latency_of a b c (iterate r_min p_max b_max a b c (k - 1))
          - latency_of a b c (iterate r_min p_max b_max a b c k)| < 1 / 1000 := by
  obtain ⟨n, h2, h1000, hrun, hlast, hbefore⟩ := solve_run_spec r_min p_max b_max a b c
  simp only [solve_iterations, solve_lagrange, hrun]
  exact ⟨h2, h1000, trivial, trivial, trivial, hlast, hbefore⟩

/-- Witness for C3 on the usage example of `main`. -/
theorem solve_lagrange_termination_witness :
    validate_inputs (.fin (5 : ℚ)) (.fin (5 / 2)) (.fin 20)
        (.fin (6 / 5)) (.fin (4 / 5)) (.fin (1 / 2)) = 1 ∧
    2 ≤ solve_iterations (5 : ℚ) (5 / 2) 20 (6 / 5) (4 / 5) (1 / 2) ∧
    solve_iterations (5 : ℚ) (5 / 2) 20 (6 / 5) (4 / 5) (1 / 2) ≤ 1000 ∧
    (solve_lagrange (5 : ℚ) (5 / 2) 20 (6 / 5) (4 / 5) (1 / 2)).rate
      = (iterate (5 : ℚ) (5 / 2) 20 (6 / 5) (4 / 5) (1 / 2)
          (solve_iterations (5 : ℚ) (5 / 2) 20 (6 / 5) (4 / 5) (1 / 2))).x1 :=
  ⟨(by norm_num [validate_inputs, Dbl.le, Dbl.ge, Dbl.mul]),
    (solve_lagrange_termination (5 : ℚ) (5 / 2) 20 (6 / 5) (4 / 5) (1 / 2) (by norm_num [validate_inputs, Dbl.le, Dbl.ge, Dbl.mul])).1,
    (solve_lagrange_termination (5 : ℚ) (5 / 2) 20 (6 / 5) (4 / 5) (1 / 2) (by norm_num [validate_inputs, Dbl.le, Dbl.ge, Dbl.mul])).2.1,
    (solve_lagrange_termination (5 : ℚ) (5 / 2) 20 (6 / 5) (4 / 5) (1 / 2) (by norm_num [validate_inputs, Dbl.le, Dbl.ge, Dbl.mul])).2.2.1⟩

/-- C4: for every accepted input the objective at the returned point is at
most the objective at the seed `(r_min + 1, 0.8 * p_max, 0.8 * b_max)`. -/
theorem solve_lagrange_objective_le_seed (r_min p_max b_max a b c : K)
    (hv : validate_inputs (.fin r_min) (.fin p_max) (.fin b_max)
      (.fin a) (.fin b) (.fin c) = 1) :
    objective (solve_lagrange r_min p_max b_max a b c).rate
        (solve_lagrange r_min p_max b_max a b c).power
        (solve_lagrange r_min p_max b_max a b c).bandwidth a b c
      ≤ objective (r_min + 1) (p_max * (8 / 10)) (b_max * (8 / 10)) a b c := by
  obtain ⟨hr, hp, hb, ha, hb', hc, _⟩ := (validate_inputs_fin_iff _ _ _ _ _ _).mp hv
  obtain ⟨n, _, _, hrun, _, _⟩ := solve_run_spec r_min p_max b_max a b c
  have h := latency_iterate_le_seed r_min p_max b_max a b c hr hp hb ha hb' hc n
  simpa only [solve_lagrange, hrun, latency_of, iterate, Function.iterate_zero, id_eq,
    init_vars] using h

/-- Witness for C4 on the usage example of `main`. -/
theorem solve_lagrange_objective_le_seed_witness :
    validate_inputs (.fin (5 : ℚ)) (.fin (5 / 2)) (.fin 20)
        (.fin (6 / 5)) (.fin (4 / 5)) (.fin (1 / 2)) = 1 ∧
    objective (solve_lagrange (5 : ℚ) (5 / 2) 20 (6 / 5) (4 / 5) (1 / 2)).rate
        (solve_lagrange (5 : ℚ) (5 / 2) 20 (6 / 5) (4 / 5) (1 / 2)).power
        (solve_lagrange (5 : ℚ) (5 / 2) 20 (6 / 5) (4 / 5) (1 / 2)).bandwidth (6 / 5) (4 / 5) (1 / 2)
      ≤ objective ((5 : ℚ) + 1) (5 / 2 * (8 / 10)) (20 * (8 / 10)) (6 / 5) (4 / 5) (1 / 2) :=
  ⟨(by norm_num [validate_inputs, Dbl.le, Dbl.ge, Dbl.mul]),
    solve_lagrange_objective_le_seed (5 : ℚ) (5 / 2) 20 (6 / 5) (4 / 5) (1 / 2) (by norm_num [validate_inputs, Dbl.le, Dbl.ge, Dbl.mul])⟩

/-- C6 fails on the code: on the accepted input `r_min = 1, p_max = 2^-600,
b_max = 1, a = b = c = 1` the seed `x2 = p_max * 0.8` is strictly positive, but
its double square `x2 * x2` underflows to 0, so the first call of `gradient`
divides `-b` by zero and `grad_x2` is `-infinity`. -/
theorem gradient_divisor_underflows :
    round_double ((2 : ℚ) ^ (-600 : ℤ)) = .fin ((2 : ℚ) ^ (-600 : ℤ)) ∧
    validate_inputs_fp (.fin 1) (.fin ((2 : ℚ) ^ (-600 : ℤ))) (.fin 1) (.fin 1) (.fin 1) (.fin 1) = 1 ∧
    Dbl.lt (.fin 0) (init_vars_fp (.fin 1) (.fin ((2 : ℚ) ^ (-600 : ℤ))) (.fin 1)).x2 = true ∧
    (gradient_divisors_fp (init_vars_fp (.fin 1) (.fin ((2 : ℚ) ^ (-600 : ℤ))) (.fin 1)).x1
      (init_vars_fp (.fin 1) (.fin ((2 : ℚ) ^ (-600 : ℤ))) (.fin 1)).x2
      (init_vars_fp (.fin 1) (.fin ((2 : ℚ) ^ (-600 : ℤ))) (.fin 1)).x3).2.1 = .fin 0 ∧
    (gradient_fp (init_vars_fp (.fin 1) (.fin ((2 : ℚ) ^ (-600 : ℤ))) (.fin 1)).x1
      (init_vars_fp (.fin 1) (.fin ((2 : ℚ) ^ (-600 : ℤ))) (.fin 1)).x2
      (init_vars_fp (.fin 1) (.fin ((2 : ℚ) ^ (-600 : ℤ))) (.fin 1)).x3 (.fin 1) (.fin 1) (.fin 1)).2.1
        = .ninf := by
  have hx2 : (init_vars_fp (.fin 1) (.fin ((2 : ℚ) ^ (-600 : ℤ))) (.fin 1)).x2 = .fin (7205759403792794 * (2 : ℚ) ^ (-653 : ℤ)) := by
    simp only [init_vars_fp, round_double_eight_tenths, fp_mul_fin, underflow_seed_x2]
  have hdiv : fp_mul (Dbl.fin (7205759403792794 * (2 : ℚ) ^ (-653 : ℤ))) (Dbl.fin (7205759403792794 * (2 : ℚ) ^ (-653 : ℤ))) = .fin 0 := by
    rw [fp_mul_fin, underflow_square]
  refine ⟨round_double_tiny, ?_, ?_, ?_, ?_⟩
  · have hten : fp_mul (Dbl.fin 1) (Dbl.fin 10) = .fin 10 := by
      rw [fp_mul_fin, round_double_ten]
    simp only [validate_inputs_fp, hten]
    norm_num [Dbl.le, Dbl.ge]
  · rw [hx2]
    norm_num [Dbl.lt]
  · simp only [gradient_divisors_fp, hx2, hdiv]
  · simp only [gradient_fp, gradient_divisors_fp, hx2, hdiv]
    norm_num [fp_div, Dbl.div, Dbl.neg, Dbl.rounded]

/-- C6 as amended: reading the doubles as exact reals, for every accepted
input the primal variables are strictly positive at the seed and after every
iteration, so each denominator used by `gradient` and `objective` in the
solver (the variables and their squares) is non-zero. -/
theorem primal_positive (r_min p_max b_max a b c : K)
    (hv : validate_inputs (.fin r_min) (.fin p_max) (.fin b_max)
      (.fin a) (.fin b) (.fin c) = 1) (k : Nat) :
    (0 < (iterate r_min p_max b_max a b c k).x1 ∧
      0 < (iterate r_min p_max b_max a b c k).x2 ∧
      0 < (iterate r_min p_max b_max a b c k).x3) ∧
    ((iterate r_min p_max b_max a b c k).x1 ≠ 0 ∧
      (iterate r_min p_max b_max a b c k).x2 ≠ 0 ∧
      (iterate r_min p_max b_max a b c k).x3 ≠ 0) ∧
    ((iterate r_min p_max b_max a b c k).x1 * (iterate r_min p_max b_max a b c k).x1 ≠ 0 ∧
      (iterate r_min p_max b_max a b c k).x2 * (iterate r_min p_max b_max a b c k).x2 ≠ 0 ∧
      (iterate r_min p_max b_max a b c k).x3 * (iterate r_min p_max b_max a b c k).x3 ≠ 0) := by
  obtain ⟨hr, hp, hb, ha, hb', hc, _⟩ := (validate_inputs_fin_iff _ _ _ _ _ _).mp hv
  obtain ⟨_, h2, h3, _, h5, _⟩ := feasible_iterate r_min p_max b_max a b c hr hp hb ha hb' hc k
  exact ⟨⟨h2, h3, h5⟩, ⟨h2.ne', h3.ne', h5.ne'⟩,
    ⟨(mul_pos h2 h2).ne', (mul_pos h3 h3).ne', (mul_pos h5 h5).ne'⟩⟩

/-- Witness for the amended C6 on the usage example of `main`, at the third
iterate. -/
theorem primal_positive_witness :
    validate_inputs (.fin (5 : ℚ)) (.fin (5 / 2)) (.fin 20)
        (.fin (6 / 5)) (.fin (4 / 5)) (.fin (1 / 2)) = 1 ∧
    0 < (iterate (5 : ℚ) (5 / 2) 20 (6 / 5) (4 / 5) (1 / 2) 3).x1 ∧
    0 < (iterate (5 : ℚ) (5 / 2) 20 (6 / 5) (4 / 5) (1 / 2) 3).x2 ∧
    0 < (iterate (5 : ℚ) (5 / 2) 20 (6 / 5) (4 / 5) (1 / 2) 3).x3 :=
  ⟨(by norm_num [validate_inputs, Dbl.le, Dbl.ge, Dbl.mul]),
    (primal_positive (5 : ℚ) (5 / 2) 20 (6 / 5) (4 / 5) (1 / 2) (by norm_num [validate_inputs, Dbl.le, Dbl.ge, Dbl.mul]) 3).1⟩

/-- C7: scenario 1.  On `r_min = 5.0, p_max = 2.5, b_max = 20.0, a = 1.2,
b = 0.8, c = 0.5` the input is accepted, the solver stops at its second
iteration because the convergence test succeeds there (well before the cap of
1000), and it returns a rate within 0.01 of 6.0 and at least `r_min`,
`power ≤ 2.5`, `bandwidth ≤ 20.0` and `latency > 0`. -/
theorem scenario1 :
    validate_inputs (.fin (5 : ℚ)) (.fin (5 / 2)) (.fin 20)
        (.fin (6 / 5)) (.fin (4 / 5)) (.fin (1 / 2)) = 1 ∧
    solve_iterations (5 : ℚ) (5 / 2) 20 (6 / 5) (4 / 5) (1 / 2) = 2 ∧
    solve_iterations (5 : ℚ) (5 / 2) 20 (6 / 5) (4 / 5) (1 / 2) < MAX_ITERATIONS ∧
    converged
      (.fin (latency_of (6 / 5) (4 / 5) (1 / 2)
        (iterate (5 : ℚ) (5 / 2) 20 (6 / 5) (4 / 5) (1 / 2) 1)))
      (latency_of (6 / 5) (4 / 5) (1 / 2)
        (iterate (5 : ℚ) (5 / 2) 20 (6 / 5) (4 / 5) (1 / 2) 2)) = true ∧
    |(solve_lagrange (5 : ℚ) (5 / 2) 20 (6 / 5) (4 / 5) (1 / 2)).rate - 6| < 1 / 100 ∧
    5 ≤ (solve_lagrange (5 : ℚ) (5 / 2) 20 (6 / 5) (4 / 5) (1 / 2)).rate ∧
    (solve_lagrange (5 : ℚ) (5 / 2) 20 (6 / 5) (4 / 5) (1 / 2)).power ≤ 5 / 2 ∧
    (solve_lagrange (5 : ℚ) (5 / 2) 20 (6 / 5) (4 / 5) (1 / 2)).bandwidth ≤ 20 ∧
    0 < (solve_lagrange (5 : ℚ) (5 / 2) 20 (6 / 5) (4 / 5) (1 / 2)).latency := by
  refine ⟨?_, ?_, ?_, ?_, ?_, ?_, ?_, ?_, ?_⟩
  · norm_num [validate_inputs, Dbl.le, Dbl.ge, Dbl.mul]
  · simp only [solve_iterations, usage_example_run]
  · simp only [solve_iterations, usage_example_run, MAX_ITERATIONS]
    norm_num
  · simp only [iterate, latency_of, Function.iterate_succ_apply, Function.iterate_zero, id_eq,
      usage_example_step1, usage_example_step2]
    exact usage_example_converged
  · simp only [solve_lagrange, usage_example_run]
    norm_num [abs_lt]
  · simp only [solve_lagrange, usage_example_run]
    norm_num
  · simp only [solve_lagrange, usage_example_run]
    norm_num
  · simp only [solve_lagrange, usage_example_run]
    norm_num
  · simp only [solve_lagrange, usage_example_run]
    norm_num [objective]

/-- C8 fails on the code: a NaN `r_min` (also a `+infinity` `p_max`) together
with otherwise ordinary parameters is accepted by `validate_inputs`, because
every comparison with NaN is false and `+infinity <= 0` is false. -/
theorem validate_inputs_accepts_nonfinite :
    Dbl.isfinite (Dbl.nan : Dbl ℚ) = false ∧
    validate_inputs (Dbl.nan : Dbl ℚ) (.fin 1) (.fin 1) (.fin 1) (.fin 1) (.fin 1) = 1 ∧
    Dbl.isfinite (Dbl.pinf : Dbl ℚ) = false ∧
    validate_inputs (.fin (1 : ℚ)) Dbl.pinf (.fin 1) (.fin 1) (.fin 1) (.fin 1) = 1 := by
  refine ⟨rfl, ?_, rfl, ?_⟩
  · norm_num [validate_inputs, Dbl.le, Dbl.ge, Dbl.mul]
  · norm_num [validate_inputs, Dbl.le, Dbl.ge, Dbl.mul]

/-- C8 as amended: `validate_inputs` rejects whenever one of the six
parameters is `-infinity`, and whenever `r_min` is `+infinity` while `b_max`
is not NaN. -/
theorem validate_inputs_rejects_infinite (r_min p_max b_max a b c : Dbl K) :
    (r_min = .ninf ∨ p_max = .ninf ∨ b_max = .ninf ∨ a = .ninf ∨ b = .ninf ∨ c = .ninf →
      validate_inputs r_min p_max b_max a b c = 0) ∧
    (r_min = .pinf → b_max ≠ .nan → validate_inputs r_min p_max b_max a b c = 0) := by
  have hn : Dbl.le (Dbl.ninf : Dbl K) (.fin 0) = true := rfl
  constructor
  · intro h
    unfold validate_inputs
    rcases h with h | h | h | h | h | h <;> subst h <;> simp [hn]
  · intro h hb
    subst h
    unfold validate_inputs
    cases b_max with
    | nan => exact absurd rfl hb
    | pinf => split_ifs <;> simp_all [Dbl.le, Dbl.ge, Dbl.mul]
    | ninf => simp [Dbl.le]
    | fin v =>
      by_cases hv : v ≤ 0
      · simp [Dbl.le, hv]
      · have hv' : 0 < v := not_le.mp hv
        split_ifs <;> simp_all [Dbl.le, Dbl.ge, Dbl.mul]

/-- Witness for the amended C8: `-infinity` as `p_max`, and `+infinity` as
`r_min` next to a finite `b_max`. -/
theorem validate_inputs_rejects_infinite_witness :
    validate_inputs (.fin (1 : ℚ)) Dbl.ninf (.fin 1) (.fin 1) (.fin 1) (.fin 1) = 0 ∧
    validate_inputs (Dbl.pinf : Dbl ℚ) (.fin 1) (.fin 1) (.fin 1) (.fin 1) (.fin 1) = 0 :=
  ⟨(validate_inputs_rejects_infinite (.fin (1 : ℚ)) Dbl.ninf (.fin 1) (.fin 1) (.fin 1)
      (.fin 1)).1 (Or.inr (Or.inl rfl)),
    (validate_inputs_rejects_infinite (Dbl.pinf : Dbl ℚ) (.fin 1) (.fin 1) (.fin 1) (.fin 1)
      (.fin 1)).2 rfl (by simp)⟩

/-- C9: `gradient` writes `-a/x1^2`, `-b/x2^2`, `-c/x3^2`, and at every point
with `x1, x2, x3 > 0` each of them is the partial derivative of `objective`
in the corresponding variable. -/
theorem gradient_exact (x1 x2 x3 a b c : ℝ) (h1 : 0 < x1) (h2 : 0 < x2) (h3 : 0 < x3) :
    gradient x1 x2 x3 a b c = (-a / x1 ^ 2, -b / x2 ^ 2, -c / x3 ^ 2) ∧
    HasDerivAt (fun x => objective x x2 x3 a b c) (gradient x1 x2 x3 a b c).1 x1 ∧
    HasDerivAt (fun x => objective x1 x x3 a b c) (gradient x1 x2 x3 a b c).2.1 x2 ∧
    HasDerivAt (fun x => objective x1 x2 x a b c) (gradient x1 x2 x3 a b c).2.2 x3 := by
  refine ⟨?_, ?_, ?_, ?_⟩
  · simp only [gradient, pow_two]
  · have h := ((hasDerivAt_inv h1.ne').const_mul a).add_const (b / x2 + c / x3)
    convert h using 1
    · funext x
      simp only [objective]
      ring
    · simp only [gradient]
      field_simp
      left
      ring
  · have h := ((hasDerivAt_inv h2.ne').const_mul b).add_const (a / x1 + c / x3)
    convert h using 1
    · funext x
      simp only [objective]
      ring
    · simp only [gradient]
      field_simp
      left
      ring
  · have h := ((hasDerivAt_inv h3.ne').const_mul c).add_const (a / x1 + b / x2)
    convert h using 1
    · funext x
      simp only [objective]
      ring
    · simp only [gradient]
      field_simp
      left
      ring

/-- Witness for C9 at the point `(2, 3, 4)` with coefficients `(1, 1, 1)`. -/
theorem gradient_exact_witness :
    ((0 : ℝ) < 2 ∧ (0 : ℝ) < 3 ∧ (0 : ℝ) < 4) ∧
    gradient (2 : ℝ) 3 4 1 1 1 = (-1 / 2 ^ 2, -1 / 3 ^ 2, -1 / 4 ^ 2) ∧
    HasDerivAt (fun x => objective x (3 : ℝ) 4 1 1 1) (gradient (2 : ℝ) 3 4 1 1 1).1 2 :=
  ⟨⟨by norm_num, by norm_num, by norm_num⟩,
    (gradient_exact 2 3 4 1 1 1 (by norm_num) (by norm_num) (by norm_num)).1,
    (gradient_exact 2 3 4 1 1 1 (by norm_num) (by norm_num) (by norm_num)).2.1⟩

/-- C10: for every accepted input the convergence test fails on the first
iteration, where `prev_latency` is still `INFINITY`, so the solver performs
at least two iterations before it returns. -/
theorem first_iteration_not_converged (r_min p_max b_max a b c : K)
    (_hv : validate_inputs (.fin r_min) (.fin p_max) (.fin b_max)
      (.fin a) (.fin b) (.fin c) = 1) :
    converged INFINITY (latency_of a b c (iterate r_min p_max b_max a b c 1)) = false ∧
    2 ≤ solve_iterations r_min p_max b_max a b c := by
  obtain ⟨n, h2, _, hrun, _, _⟩ := solve_run_spec r_min p_max b_max a b c
  refine ⟨converged_pinf _, ?_⟩
  simp only [solve_iterations, hrun]
  exact h2

/-- Witness for C10 on the usage example of `main`. -/
theorem first_iteration_not_converged_witness :
    validate_inputs (.fin (5 : ℚ)) (.fin (5 / 2)) (.fin 20)
        (.fin (6 / 5)) (.fin (4 / 5)) (.fin (1 / 2)) = 1 ∧
    converged INFINITY
      (latency_of (6 / 5) (4 / 5) (1 / 2) (iterate (5 : ℚ) (5 / 2) 20 (6 / 5) (4 / 5) (1 / 2) 1)) = false ∧
    2 ≤ solve_iterations (5 : ℚ) (5 / 2) 20 (6 / 5) (4 / 5) (1 / 2) :=
  ⟨(by norm_num [validate_inputs, Dbl.le, Dbl.ge, Dbl.mul]),
    first_iteration_not_converged (5 : ℚ) (5 / 2) 20 (6 / 5) (4 / 5) (1 / 2) (by norm_num [validate_inputs, Dbl.le, Dbl.ge, Dbl.mul])⟩

/-- C11: for every accepted input the objective does not increase from one
committed iterate to the next: `objective(x^(k+1)) ≤ objective(x^(k))`. -/
theorem objective_nonincreasing (r_min p_max b_max a b c : K)
    (hv : validate_inputs (.fin r_min) (.fin p_max) (.fin b_max)
      (.fin a) (.fin b) (.fin c) = 1) (k : Nat) :
    latency_of a b c (iterate r_min p_max b_max a b c (k + 1))
      ≤ latency_of a b c (iterate r_min p_max b_max a b c k) := by
  obtain ⟨hr, hp, hb, ha, hb', hc, _⟩ := (validate_inputs_fin_iff _ _ _ _ _ _).mp hv
  rw [iterate_succ]
  exact latency_step_le r_min p_max b_max a b c _ ha hb' hc
    (feasible_iterate r_min p_max b_max a b c hr hp hb ha hb' hc k)

/-- Witness for C11 on the usage example of `main`, between iterates 3 and 4. -/
theorem objective_nonincreasing_witness :
    validate_inputs (.fin (5 : ℚ)) (.fin (5 / 2)) (.fin 20)
        (.fin (6 / 5)) (.fin (4 / 5)) (.fin (1 / 2)) = 1 ∧
    latency_of (6 / 5) (4 / 5) (1 / 2) (iterate (5 : ℚ) (5 / 2) 20 (6 / 5) (4 / 5) (1 / 2) (3 + 1))
      ≤ latency_of (6 / 5) (4 / 5) (1 / 2) (iterate (5 : ℚ) (5 / 2) 20 (6 / 5) (4 / 5) (1 / 2) 3) :=
  ⟨(by norm_num [validate_inputs, Dbl.le, Dbl.ge, Dbl.mul]),
    objective_nonincreasing (5 : ℚ) (5 / 2) 20 (6 / 5) (4 / 5) (1 / 2) (by norm_num [validate_inputs, Dbl.le, Dbl.ge, Dbl.mul]) 3⟩

/-- C12: dual update of `solve_lagrange`, for each of the three multipliers.
With a multiplier `lambda ≥ 0`: when the slack `g` is negative the new
multiplier is `max(0, lambda - 0.01 * g)`, which equals `lambda - 0.01 * g` and
is strictly greater than `lambda`; when `g ≥ 0` the new multiplier is 0
whatever `lambda` is. -/
theorem dual_update_rule (r_min p_max b_max a b c : K) (s : Vars K) :
    (0 ≤ s.lambda1 → g1 s.x1 r_min < 0 →
      (loop_body r_min p_max b_max a b c s).lambda1
          = max 0 (s.lambda1 - 1 / 100 * g1 s.x1 r_min) ∧
        (loop_body r_min p_max b_max a b c s).lambda1 = s.lambda1 - 1 / 100 * g1 s.x1 r_min ∧
        s.lambda1 < (loop_body r_min p_max b_max a b c s).lambda1) ∧
    (0 ≤ s.lambda2 → g2 s.x2 p_max < 0 →
      (loop_body r_min p_max b_max a b c s).lambda2
          = max 0 (s.lambda2 - 1 / 100 * g2 s.x2 p_max) ∧
        (loop_body r_min p_max b_max a b c s).lambda2 = s.lambda2 - 1 / 100 * g2 s.x2 p_max ∧
        s.lambda2 < (loop_body r_min p_max b_max a b c s).lambda2) ∧
    (0 ≤ s.lambda3 → g3 s.x3 b_max < 0 →
      (loop_body r_min p_max b_max a b c s).lambda3
          = max 0 (s.lambda3 - 1 / 100 * g3 s.x3 b_max) ∧
        (loop_body r_min p_max b_max a b c s).lambda3 = s.lambda3 - 1 / 100 * g3 s.x3 b_max ∧
        s.lambda3 < (loop_body r_min p_max b_max a b c s).lambda3) ∧
    (0 ≤ g1 s.x1 r_min → (loop_body r_min p_max b_max a b c s).lambda1 = 0) ∧
    (0 ≤ g2 s.x2 p_max → (loop_body r_min p_max b_max a b c s).lambda2 = 0) ∧
    (0 ≤ g3 s.x3 b_max → (loop_body r_min p_max b_max a b c s).lambda3 = 0) := by
  have key : ∀ lam g : K, 0 ≤ lam → g < 0 →
      (if g < 0 then max 0 (lam - STEP_SIZE * g) else 0) = max 0 (lam - 1 / 100 * g) ∧
      (if g < 0 then max 0 (lam - STEP_SIZE * g) else 0) = lam - 1 / 100 * g ∧
      lam < (if g < 0 then max 0 (lam - STEP_SIZE * g) else 0) := by
    intro lam g hl hg
    have hpos : 0 ≤ lam - 1 / 100 * g := by linarith
    rw [if_pos hg]
    simp only [STEP_SIZE]
    rw [max_eq_right hpos]
    exact ⟨trivial, rfl, by linarith⟩
  have reset : ∀ lam g : K, 0 ≤ g →
      (if g < 0 then max 0 (lam - STEP_SIZE * g) else 0) = 0 := by
    intro lam g hg
    rw [if_neg (not_lt.mpr hg)]
  exact ⟨key _ _, key _ _, key _ _, reset _ _, reset _ _, reset _ _⟩

/-- Witness for C12: a state that violates all three constraints
(`x1 = 1/2 < r_min = 1`, `x2 = 2 > p_max = 1`, `x3 = 2 > b_max = 1`) with
multipliers 1, 2, 3. -/
theorem dual_update_rule_witness :
    ((0 : ℚ) ≤ 1 ∧ g1 (1 / 2 : ℚ) 1 < 0) ∧
    (loop_body (1 : ℚ) 1 1 1 1 1 ⟨1 / 2, 2, 2, 1, 2, 3⟩).lambda1
        = 1 - 1 / 100 * g1 (1 / 2 : ℚ) 1 ∧
    (1 : ℚ) < (loop_body (1 : ℚ) 1 1 1 1 1 ⟨1 / 2, 2, 2, 1, 2, 3⟩).lambda1 :=
  ⟨⟨by norm_num, by norm_num [g1]⟩,
    ((dual_update_rule (1 : ℚ) 1 1 1 1 1 ⟨1 / 2, 2, 2, 1, 2, 3⟩).1
      (by norm_num) (by norm_num [g1])).2⟩

/-- C13: for every accepted input the three slacks are non-negative at the
start of every iteration, the three multipliers are 0 after every dual update,
and `solve_lagrange` returns exactly the result of the multiplier-free solver
run from the same seed with the same convergence test and cap. -/
theorem multipliers_inactive (r_min p_max b_max a b c : K)
    (hv : validate_inputs (.fin r_min) (.fin p_max) (.fin b_max)
      (.fin a) (.fin b) (.fin c) = 1) :
    (∀ k, 0 ≤ g1 (iterate r_min p_max b_max a b c k).x1 r_min ∧
      0 ≤ g2 (iterate r_min p_max b_max a b c k).x2 p_max ∧
      0 ≤ g3 (iterate r_min p_max b_max a b c k).x3 b_max) ∧
    (∀ k, (iterate r_min p_max b_max a b c (k + 1)).lambda1 = 0 ∧
      (iterate r_min p_max b_max a b c (k + 1)).lambda2 = 0 ∧
      (iterate r_min p_max b_max a b c (k + 1)).lambda3 = 0) ∧
    solve_lagrange r_min p_max b_max a b c = multiplier_free_solve r_min p_max b_max a b c := by
  obtain ⟨hr, hp, hb, ha, hb', hc, _⟩ := (validate_inputs_fin_iff _ _ _ _ _ _).mp hv
  have hfeas := feasible_iterate r_min p_max b_max a b c hr hp hb ha hb' hc
  refine ⟨?_, ?_, ?_⟩
  · intro k
    obtain ⟨h1, _, _, h4, _, h6⟩ := hfeas k
    simp only [g1, g2, g3]
    exact ⟨by linarith, by linarith, by linarith⟩
  · intro k
    obtain ⟨h1, _, _, h4, _, h6⟩ := hfeas k
    rw [iterate_succ, loop_body_of_slack r_min p_max b_max a b c _ h1 h4 h6]
    exact ⟨rfl, rfl, rfl⟩
  · have h := solve_loop_refines r_min p_max b_max a b c ha hb' hc MAX_ITERATIONS 0 INFINITY
      (init_vars r_min p_max b_max) (feasible_init r_min p_max b_max hr hp hb)
    have hx : primal (solve_run r_min p_max b_max a b c).1
        = multiplier_free_loop r_min p_max b_max a b c MAX_ITERATIONS INFINITY
          (r_min + 1, p_max * (8 / 10), b_max * (8 / 10)) := h
    simp only [solve_lagrange, multiplier_free_solve, ← hx, primal]

/-- Witness for C13 on the usage example of `main`. -/
theorem multipliers_inactive_witness :
    validate_inputs (.fin (5 : ℚ)) (.fin (5 / 2)) (.fin 20)
        (.fin (6 / 5)) (.fin (4 / 5)) (.fin (1 / 2)) = 1 ∧
    solve_lagrange (5 : ℚ) (5 / 2) 20 (6 / 5) (4 / 5) (1 / 2)
      = multiplier_free_solve (5 : ℚ) (5 / 2) 20 (6 / 5) (4 / 5) (1 / 2) :=
  ⟨(by norm_num [validate_inputs, Dbl.le, Dbl.ge, Dbl.mul]),
    (multipliers_inactive (5 : ℚ) (5 / 2) 20 (6 / 5) (4 / 5) (1 / 2) (by norm_num [validate_inputs, Dbl.le, Dbl.ge, Dbl.mul])).2.2⟩

/-- C14 fails on the code: on the accepted input `r_min = 2^53, p_max = 1,
b_max = 2^53, a = b = c = 1` the seed `r_min + 1.0` rounds to `r_min`, the
update of `x1` is absorbed by the rounding at the first iteration and at every
later one, and the returned rate is `r_min` itself. -/
theorem rate_stalls_in_double :
    round_double 9007199254740992 = .fin 9007199254740992 ∧
    validate_inputs_fp (.fin 9007199254740992) (.fin 1) (.fin 9007199254740992) (.fin 1) (.fin 1) (.fin 1) = 1 ∧
    (init_vars_fp (.fin 9007199254740992) (.fin 1) (.fin 9007199254740992)).x1 = .fin 9007199254740992 ∧
    (loop_body_fp (.fin 9007199254740992) (.fin 1) (.fin 9007199254740992) (.fin 1) (.fin 1) (.fin 1)
        (init_vars_fp (.fin 9007199254740992) (.fin 1) (.fin 9007199254740992))).x1
      = (init_vars_fp (.fin 9007199254740992) (.fin 1) (.fin 9007199254740992)).x1 ∧
    (solve_lagrange_fp (.fin 9007199254740992) (.fin 1) (.fin 9007199254740992) (.fin 1) (.fin 1) (.fin 1)).rate = .fin 9007199254740992 ∧
    Dbl.lt (.fin (9007199254740992 + 1))
      (solve_lagrange_fp (.fin 9007199254740992) (.fin 1) (.fin 9007199254740992) (.fin 1) (.fin 1) (.fin 1)).rate = false := by
  have hrate : (solve_lagrange_fp (.fin 9007199254740992) (.fin 1) (.fin 9007199254740992) (.fin 1) (.fin 1) (.fin 1)).rate = .fin 9007199254740992 := by
    obtain ⟨m, hm⟩ := solve_loop_fp_is_iterate (.fin 9007199254740992) (.fin 1) (.fin 9007199254740992) (.fin 1) (.fin 1) (.fin 1)
      MAX_ITERATIONS INFINITY (init_vars_fp (.fin 9007199254740992) (.fin 1) (.fin 9007199254740992))
    simp only [solve_lagrange_fp, hm]
    exact iterate_fp_x1_fixed m
  refine ⟨round_double_big, ?_, init_vars_fp_x1_absorbed, ?_, hrate, ?_⟩
  · have hprod : fp_mul (Dbl.fin 9007199254740992) (Dbl.fin 10) = .fin 90071992547409920 := by
      rw [fp_mul_fin, round_double_big_times_ten]
    simp only [validate_inputs_fp, hprod]
    norm_num [Dbl.le, Dbl.ge]
  · rw [init_vars_fp_x1_absorbed]
    exact loop_body_fp_x1_fixed _ _ _ _ _ init_vars_fp_x1_absorbed
  · rw [hrate]
    norm_num [Dbl.lt]

/-- C14 as amended: reading the doubles as exact reals, for every accepted
input `x1` strictly increases at every iteration, the projection
`fmax(new_x1, r_min)` leaves `new_x1` unchanged, and the returned rate is
strictly greater than `r_min + 1`. -/
theorem rate_strictly_increases (r_min p_max b_max a b c : K)
    (hv : validate_inputs (.fin r_min) (.fin p_max) (.fin b_max)
      (.fin a) (.fin b) (.fin c) = 1) :
    (∀ k, (iterate r_min p_max b_max a b c k).x1 < (iterate r_min p_max b_max a b c (k + 1)).x1) ∧
    (∀ k, (iterate r_min p_max b_max a b c (k + 1)).x1
        = max (unprojected r_min p_max b_max a b c (iterate r_min p_max b_max a b c k)).1 r_min ∧
      max (unprojected r_min p_max b_max a b c (iterate r_min p_max b_max a b c k)).1 r_min
        = (unprojected r_min p_max b_max a b c (iterate r_min p_max b_max a b c k)).1) ∧
    r_min + 1 < (solve_lagrange r_min p_max b_max a b c).rate := by
  obtain ⟨hr, hp, hb, ha, hb', hc, _⟩ := (validate_inputs_fin_iff _ _ _ _ _ _).mp hv
  refine ⟨fun k => (iterate_step r_min p_max b_max a b c hr hp hb ha hb' hc k).1, ?_, ?_⟩
  · intro k
    obtain ⟨h1, h2, _, h4, _, h6⟩ :=
      feasible_iterate r_min p_max b_max a b c hr hp hb ha hb' hc k
    refine ⟨by rw [iterate_succ]; rfl, ?_⟩
    rw [unprojected_of_slack r_min p_max b_max a b c _ h1 h4 h6]
    have d1 : 0 < 1 / 100 * (a / ((iterate r_min p_max b_max a b c k).x1 * (iterate r_min p_max b_max a b c k).x1)) := by
      positivity
    exact max_eq_left (by linarith)
  · obtain ⟨n, h2, _, hrun, _, _⟩ := solve_run_spec r_min p_max b_max a b c
    simp only [solve_lagrange, hrun]
    exact seed_lt_iterate_x1 r_min p_max b_max a b c hr hp hb ha hb' hc n (by omega)

/-- Witness for the amended C14 on the usage example of `main`. -/
theorem rate_strictly_increases_witness :
    validate_inputs (.fin (5 : ℚ)) (.fin (5 / 2)) (.fin 20)
        (.fin (6 / 5)) (.fin (4 / 5)) (.fin (1 / 2)) = 1 ∧
    (5 : ℚ) + 1 < (solve_lagrange (5 : ℚ) (5 / 2) 20 (6 / 5) (4 / 5) (1 / 2)).rate :=
  ⟨(by norm_num [validate_inputs, Dbl.le, Dbl.ge, Dbl.mul]),
    (rate_strictly_increases (5 : ℚ) (5 / 2) 20 (6 / 5) (4 / 5) (1 / 2) (by norm_num [validate_inputs, Dbl.le, Dbl.ge, Dbl.mul])).2.2⟩

/-- C15: for every accepted input `x2` and `x3` never decrease from one
iteration to the next, the returned power lies in `[0.8 * p_max, p_max]` and
the returned bandwidth in `[0.8 * b_max, b_max]`, and once `x2` (resp. `x3`)
equals `p_max` (resp. `b_max`) it keeps that value at every later iterate. -/
theorem power_bandwidth_monotone (r_min p_max b_max a b c : K)
    (hv : validate_inputs (.fin r_min) (.fin p_max) (.fin b_max)
      (.fin a) (.fin b) (.fin c) = 1) :
    (∀ k, (iterate r_min p_max b_max a b c k).x2 ≤ (iterate r_min p_max b_max a b c (k + 1)).x2 ∧
      (iterate r_min p_max b_max a b c k).x3 ≤ (iterate r_min p_max b_max a b c (k + 1)).x3) ∧
    (p_max * (8 / 10) ≤ (solve_lagrange r_min p_max b_max a b c).power ∧ (solve_lagrange r_min p_max b_max a b c).power ≤ p_max) ∧
    (b_max * (8 / 10) ≤ (solve_lagrange r_min p_max b_max a b c).bandwidth ∧ (solve_lagrange r_min p_max b_max a b c).bandwidth ≤ b_max) ∧
    (∀ k j, k ≤ j → (iterate r_min p_max b_max a b c k).x2 = p_max → (iterate r_min p_max b_max a b c j).x2 = p_max) ∧
    (∀ k j, k ≤ j → (iterate r_min p_max b_max a b c k).x3 = b_max → (iterate r_min p_max b_max a b c j).x3 = b_max) := by
  obtain ⟨hr, hp, hb, ha, hb', hc, _⟩ := (validate_inputs_fin_iff _ _ _ _ _ _).mp hv
  have hstep := iterate_step r_min p_max b_max a b c hr hp hb ha hb' hc
  have hfeas := feasible_iterate r_min p_max b_max a b c hr hp hb ha hb' hc
  have hseed := seed_le_iterate r_min p_max b_max a b c hr hp hb ha hb' hc
  obtain ⟨n, _, _, hrun, _, _⟩ := solve_run_spec r_min p_max b_max a b c
  refine ⟨fun k => (hstep k).2, ?_, ?_, ?_, ?_⟩
  · simp only [solve_lagrange, hrun]
    exact ⟨(hseed n).2.1, (hfeas n).2.2.2.1⟩
  · simp only [solve_lagrange, hrun]
    exact ⟨(hseed n).2.2, (hfeas n).2.2.2.2.2⟩
  · intro k j hkj hk
    induction j, hkj using Nat.le_induction with
    | base => exact hk
    | succ j _ ih =>
      have h := (hstep j).2.1
      rw [ih] at h
      exact le_antisymm (hfeas (j + 1)).2.2.2.1 h
  · intro k j hkj hk
    induction j, hkj using Nat.le_induction with
    | base => exact hk
    | succ j _ ih =>
      have h := (hstep j).2.2
      rw [ih] at h
      exact le_antisymm (hfeas (j + 1)).2.2.2.2.2 h

/-- Witness for C15 on the usage example of `main`. -/
theorem power_bandwidth_monotone_witness :
    validate_inputs (.fin (5 : ℚ)) (.fin (5 / 2)) (.fin 20)
        (.fin (6 / 5)) (.fin (4 / 5)) (.fin (1 / 2)) = 1 ∧
    ((5 / 2 : ℚ) * (8 / 10) ≤ (solve_lagrange (5 : ℚ) (5 / 2) 20 (6 / 5) (4 / 5) (1 / 2)).power ∧
      (solve_lagrange (5 : ℚ) (5 / 2) 20 (6 / 5) (4 / 5) (1 / 2)).power ≤ 5 / 2) :=
  ⟨(by norm_num [validate_inputs, Dbl.le, Dbl.ge, Dbl.mul]),
    (power_bandwidth_monotone (5 : ℚ) (5 / 2) 20 (6 / 5) (4 / 5) (1 / 2) (by norm_num [validate_inputs, Dbl.le, Dbl.ge, Dbl.mul])).2.1⟩

/-- C16: the accepted input `r_min = 1, p_max = 1, b_max = 1, a = 1000, b = 1,
c = 1` makes the convergence test fail at every one of the 1000 iterations;
the solver leaves the loop through the iteration cap and returns the 1000th
iterate.  The result of any run is made only of the final point and its
objective value, whatever the number of iterations, so it does not tell a
capped run from a converged one. -/
theorem iteration_cap_reached :
    validate_inputs (.fin (1 : ℚ)) (.fin 1) (.fin 1) (.fin 1000) (.fin 1) (.fin 1) = 1 ∧
    converged INFINITY (latency_of 1000 1 1 (iterate (1 : ℚ) 1 1 1000 1 1 1)) = false ∧
    (∀ k, 1 ≤ k → k < 1000 →
      converged (.fin (latency_of 1000 1 1 (iterate (1 : ℚ) 1 1 1000 1 1 k)))
        (latency_of 1000 1 1 (iterate (1 : ℚ) 1 1 1000 1 1 (k + 1))) = false) ∧
    solve_iterations (1 : ℚ) 1 1 1000 1 1 = MAX_ITERATIONS ∧
    solve_lagrange (1 : ℚ) 1 1 1000 1 1
      = ⟨(iterate (1 : ℚ) 1 1 1000 1 1 1000).x1, (iterate (1 : ℚ) 1 1 1000 1 1 1000).x2, (iterate (1 : ℚ) 1 1 1000 1 1 1000).x3,
          objective (iterate (1 : ℚ) 1 1 1000 1 1 1000).x1 (iterate (1 : ℚ) 1 1 1000 1 1 1000).x2 (iterate (1 : ℚ) 1 1 1000 1 1 1000).x3 1000 1 1⟩ ∧
    (∀ (r_min p_max b_max a b c : ℚ) (s : Vars ℚ) (n : Nat),
      solve_run r_min p_max b_max a b c = (s, n) →
      solve_lagrange r_min p_max b_max a b c
        = ⟨s.x1, s.x2, s.x3, objective s.x1 s.x2 s.x3 a b c⟩) := by
  have hrun := solve_lagrange_of_run (1 : ℚ) 1 1 1000 1 1 _ _ cap_example_run
  have hcap : (1000 : Nat) = MAX_ITERATIONS := rfl
  refine ⟨?_, converged_pinf _, fun k _ hk => cap_example_not_converged k hk,
    hrun.2.trans hcap, hrun.1,
    fun r_min p_max b_max a b c s n h =>
      (solve_lagrange_of_run r_min p_max b_max a b c s n h).1⟩
  norm_num [validate_inputs, Dbl.le, Dbl.ge, Dbl.mul]

/-- Witness for C16: the comparison made by iteration 501 (iterates 500 and
501) does not pass the convergence test. -/
theorem iteration_cap_reached_witness :
    converged (.fin (latency_of 1000 1 1 (iterate (1 : ℚ) 1 1 1000 1 1 500)))
      (latency_of 1000 1 1 (iterate (1 : ℚ) 1 1 1000 1 1 (500 + 1))) = false :=
  iteration_cap_reached.2.2.1 500 (by norm_num) (by norm_num)

end Claims


end LagrangeOpt
